import Mathlib

/-!
# Verification development for the AlphaPack crystal token codec

This file is a shallow embedding, in Lean 4, of the core of
`backend/org_crystal.py`: the numeric digit tokenizer (`split_numeric`),
the crystal entity (`MolecularCrystal`), the token encoder
(`get_crystal_tokens`), the token decoder (`from_tokens`), the geometry
helpers (`abs_cap`, `lattice_params_to_matrix`, `rodrigues_to_rotmat`,
`rotmat_to_rodrigues`) and the CIF serializer (`to_cif_string`), together
with theorems settling the stated properties of that code.

Modelling conventions:
* Python floats are modelled as exact rationals `ℚ`.  Where the sign bit
  of an IEEE value is observable (fixed-point formatting prints `-0.00`
  for a negative value that rounds to zero), a float is carried as a
  sign/magnitude pair `Bool × ℚ`.
* Python's fixed-point formatting `f"{v:.pf}"` rounds the value to `p`
  decimal places with ties to even, which is modelled by `roundHalfEven`.
* Fallible Python code (exceptions) is modelled with `Except PyErr`.
  The constructors `PyErr.indexError`, `PyErr.valueError`,
  `PyErr.keyError` and `PyErr.linAlgError` mirror the builtin exceptions
  the source can actually raise; `PyErr.missingTag` and
  `PyErr.unsupportedSpaceGroup` are modelled from the spec's error
  taxonomy (the source defines no such classes) and are used only to
  state spec-level claims.
* The transcendental functions (`np.cos`, `np.sin`, `np.arccos`,
  applied to already-converted values) are taken as explicit function
  parameters `ℚ → ℚ`; theorems about code paths that evaluate them
  assume only their exact values at the arguments actually used
  (e.g. `cosd 90 = 0`), which are true of the real functions.
-/

set_option maxRecDepth 100000

namespace OrgCrystal

/-! ## Decimal digits: shared helpers for Python's int/float formatting -/

/-- Numeric value of a decimal digit character (`ord c - ord '0'`). -/
def charVal (c : Char) : ℕ := c.toNat - 48

/-- Little-endian decimal digits of `n` as characters, using `fuel ≥ n`
steps of structural recursion (so that the kernel can evaluate it); `[]`
for zero. -/
def natDigitsAux : ℕ → ℕ → List Char
  | 0, _ => []
  | _, 0 => []
  | fuel + 1, n => Nat.digitChar (n % 10) :: natDigitsAux fuel (n / 10)

/-- The decimal digit characters of `m`, most significant first; `"0"` for
zero.  Models the digit sequence Python prints for a nonnegative integer. -/
def natDigitsChars (m : ℕ) : List Char :=
  if m = 0 then ['0'] else (natDigitsAux m m).reverse

theorem natDigitsAux_eq_digits : ∀ fuel n, n ≤ fuel →
    natDigitsAux fuel n = (Nat.digits 10 n).map Nat.digitChar := by
  intro fuel
  induction fuel with
  | zero =>
    intro n hn
    interval_cases n
    simp [natDigitsAux]
  | succ fuel ih =>
    intro n hn
    cases n with
    | zero => simp [natDigitsAux]
    | succ m =>
      have hdiv : (m + 1) / 10 ≤ fuel := by
        have := Nat.div_lt_self (Nat.succ_pos m) (by norm_num : 1 < 10)
        omega
      rw [show natDigitsAux (fuel + 1) (m + 1) =
        Nat.digitChar ((m + 1) % 10) :: natDigitsAux fuel ((m + 1) / 10) from rfl,
        ih _ hdiv, Nat.digits_def' (by norm_num : 1 < 10) (Nat.succ_pos m), List.map_cons]

theorem natDigitsChars_eq (m : ℕ) :
    natDigitsChars m = if m = 0 then ['0']
      else ((Nat.digits 10 m).map Nat.digitChar).reverse := by
  unfold natDigitsChars
  by_cases hm : m = 0
  · rw [if_pos hm, if_pos hm]
  · rw [if_neg hm, if_neg hm, natDigitsAux_eq_digits m m le_rfl]

/-- Python's `f"{m}"` for a natural number. -/
def natStr (m : ℕ) : String := ⟨natDigitsChars m⟩

/-- Python's `f"{z}"` for an integer. -/
def intStr (z : ℤ) : String := (if z < 0 then "-" else "") ++ natStr z.natAbs

/-- Little-endian list of exactly `p` decimal digits of `f` (used for the
zero-padded fractional part of fixed-point formatting). -/
def fracCharsAux : ℕ → ℕ → List Char
  | 0, _ => []
  | p + 1, f => Nat.digitChar (f % 10) :: fracCharsAux p (f / 10)

/-- Exactly `p` decimal digit characters of `f < 10^p`, most significant
first (zero padded on the left). -/
def fracChars (f p : ℕ) : List Char := (fracCharsAux p f).reverse

/-- Round a rational to the nearest integer, ties to even: the rounding
Python applies to the (exact) value when formatting with `f"{v:.pf}"`. -/
def roundHalfEven (q : ℚ) : ℤ :=
  if q - ⌊q⌋ < 1/2 then ⌊q⌋
  else if 1/2 < q - ⌊q⌋ then ⌊q⌋ + 1
  else if ⌊q⌋ % 2 = 0 then ⌊q⌋ else ⌊q⌋ + 1

/-- Python's `f"{v:.pf}"` for a float given as sign bit and magnitude
(`mag ≥ 0`): the sign is printed from the sign bit, the magnitude is
rounded to `p` decimal places, and for `p = 0` no decimal point is
printed. -/
def formatFixedSM (sgn : Bool) (mag : ℚ) (p : ℕ) : String :=
  let n := (roundHalfEven (mag * 10 ^ p)).toNat
  (if sgn then "-" else "") ++ natStr (n / 10 ^ p) ++
    (if p = 0 then "" else "." ++ String.mk (fracChars (n % 10 ^ p) p))

/-- `list(f"{v:.pf}")` for a sign/magnitude float: the formatted string
exploded into one single-character token per character.  This is
`split_numeric` of the source applied to a float carried with its sign
bit. -/
def digitizeF (w : Bool × ℚ) (p : ℕ) : List String :=
  (formatFixedSM w.1 w.2 p).data.map (fun c => String.mk [c])

/-- `split_numeric(val, precision)` from `org_crystal.py`:
`list(f"{val:.{precision}f}")`.  A rational value carries no negative
zero, so its sign bit is `val < 0`. -/
def split_numeric (val : ℚ) (precision : ℕ) : List String :=
  digitizeF (decide (val < 0), |val|) precision

/-! ## Python's `int(...)` and `float(...)` on decimal literals -/

/-- Big-endian value of a digit character list. -/
def digitsVal (l : List Char) : ℕ := Nat.ofDigits 10 ((l.map charVal).reverse)

/-- Parse a nonempty all-digit character list; `none` otherwise. -/
def digitsVal? (l : List Char) : Option ℕ :=
  if l ≠ [] ∧ l.all (fun c => c.isDigit) then some (digitsVal l) else none

/-- Strip an optional leading sign character, returning the sign bit
(`true` for a leading `-`) and the remaining characters. -/
def stripSign : List Char → Bool × List Char
  | [] => (false, [])
  | c :: rest =>
    if c = '-' then (true, rest)
    else if c = '+' then (false, rest)
    else (false, c :: rest)

/-- Python's `int(s)` on the strings arising here: an optional sign
followed by at least one decimal digit (no whitespace, no underscores). -/
def pyInt? (s : String) : Option ℤ :=
  match stripSign s.data with
  | (true, rest) => (digitsVal? rest).map (fun n => -(n : ℤ))
  | (false, rest) => (digitsVal? rest).map (fun n => (n : ℤ))

/-- Split a character list at the first occurrence of `x`:
`(before, some after)` if present, `(l, none)` otherwise. -/
def breakAtChar (x : Char) : List Char → List Char × Option (List Char)
  | [] => ([], none)
  | c :: cs =>
    if c = x then ([], some cs)
    else
      let r := breakAtChar x cs
      (c :: r.1, r.2)

/-- Python's `float(s)` on plain decimal literals (optional sign, digits,
at most one point, at least one digit), returning the sign bit and the
magnitude.  Exponent/`inf`/`nan` forms never arise in this codec and are
not modelled. -/
def pyFloatSM? (s : String) : Option (Bool × ℚ) :=
  let sg := (stripSign s.data).1
  let body := (stripSign s.data).2
  match (breakAtChar '.' body).2 with
  | none => (digitsVal? (breakAtChar '.' body).1).map (fun n => (sg, (n : ℚ)))
  | some fracC =>
    if (breakAtChar '.' body).1.all (fun c => c.isDigit) ∧
        fracC.all (fun c => c.isDigit) ∧
        ((breakAtChar '.' body).1 ≠ [] ∨ fracC ≠ []) then
      some (sg, (digitsVal (breakAtChar '.' body).1 : ℚ) +
        (digitsVal fracC : ℚ) / 10 ^ fracC.length)
    else none

/-- Python's `float(s)` as a rational value (the sign applied to the
magnitude; the sign of a zero is not representable in `ℚ`). -/
def pyFloat? (s : String) : Option ℚ :=
  (pyFloatSM? s).map (fun w => if w.1 then -w.2 else w.2)

/-- Python's `''.join(tokens)`. -/
def pyJoin (l : List String) : String := ⟨(l.map String.data).flatten⟩

/-! ## Lemmas about the decimal digit helpers -/

theorem digitChar_isDigit {d : ℕ} (h : d < 10) : (Nat.digitChar d).isDigit = true := by
  interval_cases d <;> decide

theorem charVal_digitChar {d : ℕ} (h : d < 10) : charVal (Nat.digitChar d) = d := by
  interval_cases d <;> decide

theorem natDigitsChars_ne_nil (m : ℕ) : natDigitsChars m ≠ [] := by
  rw [natDigitsChars_eq]
  split
  · simp
  · simp [Nat.digits_ne_nil_iff_ne_zero, *]

theorem natDigitsChars_all_digit (m : ℕ) :
    (natDigitsChars m).all (fun c => c.isDigit) = true := by
  rw [natDigitsChars_eq]
  split
  · decide
  · rw [List.all_eq_true]
    intro c hc
    rw [List.mem_reverse, List.mem_map] at hc
    obtain ⟨d, hd, rfl⟩ := hc
    exact digitChar_isDigit (Nat.digits_lt_base (by norm_num) hd)

theorem digitsVal_natDigitsChars (m : ℕ) : digitsVal (natDigitsChars m) = m := by
  rw [natDigitsChars_eq]
  unfold digitsVal
  split
  · simp_all
    decide
  · rw [List.map_reverse, List.reverse_reverse, List.map_map]
    have hmap : (Nat.digits 10 m).map (charVal ∘ Nat.digitChar) = Nat.digits 10 m := by
      conv_rhs => rw [← List.map_id (Nat.digits 10 m)]
      apply List.map_congr_left
      intro d hd
      exact charVal_digitChar (Nat.digits_lt_base (by norm_num) hd)
    rw [hmap, Nat.ofDigits_digits]

theorem fracCharsAux_length (p f : ℕ) : (fracCharsAux p f).length = p := by
  induction p generalizing f with
  | zero => rfl
  | succ p ih => simp [fracCharsAux, ih]

theorem fracCharsAux_all_digit (p f : ℕ) :
    (fracCharsAux p f).all (fun c => c.isDigit) = true := by
  induction p generalizing f with
  | zero => rfl
  | succ p ih =>
    simp only [fracCharsAux, List.all_cons, Bool.and_eq_true]
    exact ⟨digitChar_isDigit (Nat.mod_lt _ (by norm_num)), ih (f / 10)⟩

theorem mod_ten_pow_succ (f p : ℕ) :
    f % 10 + 10 * (f / 10 % 10 ^ p) = f % 10 ^ (p + 1) := by
  have hP : 0 < 10 ^ p := Nat.pos_pow_of_pos p (by norm_num)
  have h1 : f % 10 < 10 := Nat.mod_lt _ (by norm_num)
  have h2 : f / 10 % 10 ^ p < 10 ^ p := Nat.mod_lt _ hP
  have h3 : f = 10 ^ p * 10 * (f / 10 / 10 ^ p) + (f % 10 + 10 * (f / 10 % 10 ^ p)) := by
    have e1 := Nat.div_add_mod f 10
    have e2 := Nat.div_add_mod (f / 10) (10 ^ p)
    nlinarith [e1, e2]
  rw [pow_succ]
  calc f % 10 + 10 * (f / 10 % 10 ^ p)
      = (10 ^ p * 10 * (f / 10 / 10 ^ p) + (f % 10 + 10 * (f / 10 % 10 ^ p))) % (10 ^ p * 10) := by
        rw [Nat.mul_add_mod]
        exact (Nat.mod_eq_of_lt (by nlinarith)).symm
    _ = f % (10 ^ p * 10) := by rw [← h3]

theorem ofDigits_fracCharsAux (p f : ℕ) :
    Nat.ofDigits 10 ((fracCharsAux p f).map charVal) = f % 10 ^ p := by
  induction p generalizing f with
  | zero => simp [fracCharsAux, Nat.ofDigits, Nat.mod_one]
  | succ p ih =>
    have hd : f % 10 < 10 := Nat.mod_lt f (by norm_num)
    simp only [fracCharsAux, List.map_cons, Nat.ofDigits_cons,
      charVal_digitChar hd, ih]
    exact_mod_cast mod_ten_pow_succ f p

theorem digitsVal_fracChars {f p : ℕ} (h : f < 10 ^ p) : digitsVal (fracChars f p) = f := by
  unfold digitsVal fracChars
  rw [List.map_reverse, List.reverse_reverse, ofDigits_fracCharsAux]
  exact Nat.mod_eq_of_lt h

theorem fracChars_length (f p : ℕ) : (fracChars f p).length = p := by
  simp [fracChars, fracCharsAux_length]

theorem fracChars_all_digit (f p : ℕ) :
    (fracChars f p).all (fun c => c.isDigit) = true := by
  simp only [fracChars, List.all_eq_true, List.mem_reverse]
  have := fracCharsAux_all_digit p f
  rw [List.all_eq_true] at this
  exact fun c hc => this c hc

/-! ## Lemmas about `roundHalfEven` -/

theorem roundHalfEven_eq_fract (q : ℚ) :
    roundHalfEven q =
      if Int.fract q < 1/2 then ⌊q⌋
      else if 1/2 < Int.fract q then ⌊q⌋ + 1
      else if ⌊q⌋ % 2 = 0 then ⌊q⌋ else ⌊q⌋ + 1 := by
  rw [roundHalfEven, Int.self_sub_floor]

theorem roundHalfEven_intCast (z : ℤ) : roundHalfEven (z : ℚ) = z := by
  rw [roundHalfEven_eq_fract, Int.fract_intCast, Int.floor_intCast]
  norm_num

theorem roundHalfEven_nonneg {q : ℚ} (h : 0 ≤ q) : 0 ≤ roundHalfEven q := by
  have hf : 0 ≤ ⌊q⌋ := Int.floor_nonneg.mpr h
  rw [roundHalfEven_eq_fract]
  split
  · exact hf
  · split
    · omega
    · split <;> omega

theorem roundHalfEven_neg (q : ℚ) : roundHalfEven (-q) = -roundHalfEven q := by
  by_cases h0 : Int.fract q = 0
  · obtain ⟨z, hz⟩ : ∃ z : ℤ, q = (z : ℚ) := by
      refine ⟨⌊q⌋, ?_⟩
      have := Int.self_sub_floor q
      rw [h0] at this
      linarith
    rw [hz, ← Int.cast_neg, roundHalfEven_intCast, roundHalfEven_intCast]
  · have hr0 : 0 < Int.fract q := lt_of_le_of_ne (Int.fract_nonneg q) (Ne.symm h0)
    have hr1 : Int.fract q < 1 := Int.fract_lt_one q
    have hfn : Int.fract (-q) = 1 - Int.fract q := Int.fract_neg h0
    have hfl : ⌊-q⌋ = -⌊q⌋ - 1 := by
      have a1 := Int.self_sub_floor q
      have a2 := Int.self_sub_floor (-q)
      rw [hfn] at a2
      have hcast : ((⌊-q⌋ : ℤ) : ℚ) = ((-⌊q⌋ - 1 : ℤ) : ℚ) := by push_cast; linarith
      exact_mod_cast hcast
    rw [roundHalfEven_eq_fract, roundHalfEven_eq_fract, hfn, hfl]
    rcases lt_trichotomy (Int.fract q) (1/2) with hlt | heq | hgt
    · rw [if_neg (by linarith), if_pos (by linarith), if_pos hlt]
      ring
    · rw [heq]
      norm_num
      omega
    · rw [if_pos (by linarith), if_neg (by linarith), if_pos hgt]
      ring

/-! ## Round trip between fixed-point formatting and parsing -/

theorem isDigit_ne_dash {c : Char} (h : c.isDigit = true) : c ≠ '-' := by
  intro he
  rw [he] at h
  exact absurd h (by decide)

theorem isDigit_ne_plus {c : Char} (h : c.isDigit = true) : c ≠ '+' := by
  intro he
  rw [he] at h
  exact absurd h (by decide)

theorem isDigit_ne_dot {c : Char} (h : c.isDigit = true) : c ≠ '.' := by
  intro he
  rw [he] at h
  exact absurd h (by decide)

theorem dot_not_mem_of_all_digit {l : List Char} (h : l.all (fun c => c.isDigit) = true) :
    '.' ∉ l := by
  intro hmem
  rw [List.all_eq_true] at h
  exact absurd rfl (isDigit_ne_dot (h _ hmem)).symm

theorem breakAtChar_not_mem {x : Char} {l : List Char} (h : x ∉ l) :
    breakAtChar x l = (l, none) := by
  induction l with
  | nil => rfl
  | cons c cs ih =>
    rw [List.mem_cons, not_or] at h
    simp [breakAtChar, Ne.symm h.1, ih h.2]

theorem breakAtChar_first {x : Char} {l : List Char} (h : x ∉ l) (r : List Char) :
    breakAtChar x (l ++ x :: r) = (l, some r) := by
  induction l with
  | nil => simp [breakAtChar]
  | cons c cs ih =>
    rw [List.mem_cons, not_or] at h
    simp [breakAtChar, Ne.symm h.1, ih h.2]

theorem stripSign_dash (l : List Char) : stripSign ('-' :: l) = (true, l) := rfl

theorem stripSign_digit {c : Char} (h : c.isDigit = true) (l : List Char) :
    stripSign (c :: l) = (false, c :: l) := by
  simp only [stripSign]
  rw [if_neg (isDigit_ne_dash h), if_neg (isDigit_ne_plus h)]

theorem digitsVal?_natDigitsChars (m : ℕ) : digitsVal? (natDigitsChars m) = some m := by
  unfold digitsVal?
  rw [if_pos ⟨natDigitsChars_ne_nil m, natDigitsChars_all_digit m⟩, digitsVal_natDigitsChars]

theorem natDigitsChars_head (m : ℕ) :
    ∃ c cs, natDigitsChars m = c :: cs ∧ c.isDigit = true := by
  have hne := natDigitsChars_ne_nil m
  have hall := natDigitsChars_all_digit m
  cases h : natDigitsChars m with
  | nil => exact absurd h hne
  | cons c cs =>
    rw [h, List.all_cons, Bool.and_eq_true] at hall
    exact ⟨c, cs, rfl, hall.1⟩

theorem pyInt_intStr (z : ℤ) : pyInt? (intStr z) = some z := by
  unfold pyInt? intStr natStr
  by_cases hz : z < 0
  · rw [if_pos hz]
    have hdata : (("-" : String) ++ (⟨natDigitsChars z.natAbs⟩ : String)).data =
        '-' :: natDigitsChars z.natAbs := by
      rw [String.data_append]
      rfl
    rw [hdata, stripSign_dash]
    simp [digitsVal?_natDigitsChars, abs_of_neg hz]
  · rw [if_neg hz]
    obtain ⟨c, cs, hcons, hdig⟩ := natDigitsChars_head z.natAbs
    have hdata : (("" : String) ++ (⟨natDigitsChars z.natAbs⟩ : String)).data =
        natDigitsChars z.natAbs := by
      rw [String.data_append]
      rfl
    rw [hdata, hcons, stripSign_digit hdig, ← hcons]
    simp [digitsVal?_natDigitsChars, abs_of_nonneg (not_lt.mp hz)]

theorem formatFixedSM_data (sgn : Bool) (mag : ℚ) (p : ℕ) :
    (formatFixedSM sgn mag p).data =
      (if sgn then ['-'] else []) ++
        natDigitsChars ((roundHalfEven (mag * 10 ^ p)).toNat / 10 ^ p) ++
        (if p = 0 then []
          else '.' :: fracChars ((roundHalfEven (mag * 10 ^ p)).toNat % 10 ^ p) p) := by
  unfold formatFixedSM natStr
  cases sgn <;> by_cases hp : p = 0 <;>
    simp [hp, String.data_append]

theorem pyFloatSM_formatFixedSM (sgn : Bool) (mag : ℚ) (p : ℕ) :
    pyFloatSM? (formatFixedSM sgn mag p) =
      some (sgn, ((roundHalfEven (mag * 10 ^ p)).toNat : ℚ) / 10 ^ p) := by
  have hdata := formatFixedSM_data sgn mag p
  set n := (roundHalfEven (mag * 10 ^ p)).toNat with hn
  obtain ⟨c, cs, hcons, hdig⟩ := natDigitsChars_head (n / 10 ^ p)
  have hdotint : '.' ∉ natDigitsChars (n / 10 ^ p) :=
    dot_not_mem_of_all_digit (natDigitsChars_all_digit _)
  by_cases hp : p = 0
  · subst hp
    have hdata2 : (formatFixedSM sgn mag (0 : ℕ)).data =
        (if sgn = true then ['-'] else []) ++ natDigitsChars (n / 10 ^ (0 : ℕ)) := by
      rw [hdata, if_pos rfl, List.append_nil]
    have hstrip : stripSign (formatFixedSM sgn mag (0 : ℕ)).data =
        (sgn, natDigitsChars (n / 10 ^ (0 : ℕ))) := by
      rw [hdata2]
      cases sgn
      · rw [if_neg Bool.false_ne_true, List.nil_append, hcons, stripSign_digit hdig, ← hcons]
      · rw [if_pos rfl, List.singleton_append, stripSign_dash]
    simp only [pyFloatSM?, hstrip, breakAtChar_not_mem hdotint, digitsVal?_natDigitsChars]
    simp
  · have hstrip : stripSign (formatFixedSM sgn mag p).data =
        (sgn, natDigitsChars (n / 10 ^ p) ++ '.' :: fracChars (n % 10 ^ p) p) := by
      rw [hdata, if_neg hp]
      cases sgn
      · rw [if_neg Bool.false_ne_true, List.nil_append, hcons, List.cons_append,
          stripSign_digit hdig, ← List.cons_append, ← hcons]
      · rw [if_pos rfl, List.singleton_append, List.cons_append, stripSign_dash]
    have hfraclt : n % 10 ^ p < 10 ^ p :=
      Nat.mod_lt _ (Nat.pos_pow_of_pos p (by norm_num))
    simp only [pyFloatSM?, hstrip, breakAtChar_first hdotint, natDigitsChars_all_digit,
      fracChars_all_digit, natDigitsChars_ne_nil, ne_eq, not_false_eq_true, true_or,
      and_self, if_true, true_and]
    rw [digitsVal_natDigitsChars, digitsVal_fracChars hfraclt, fracChars_length]
    have hPow : ((10 : ℚ)) ^ p ≠ 0 := by positivity
    have hnat : n / 10 ^ p * 10 ^ p + n % 10 ^ p = n := by
      rw [mul_comm]
      exact Nat.div_add_mod n (10 ^ p)
    have hkey : ((n : ℚ)) = ((n / 10 ^ p : ℕ) : ℚ) * 10 ^ p + ((n % 10 ^ p : ℕ) : ℚ) := by
      exact_mod_cast hnat.symm
    rw [Option.some.injEq, Prod.mk.injEq]
    refine ⟨rfl, ?_⟩
    rw [eq_div_iff hPow, add_mul, div_mul_cancel₀ _ hPow]
    exact_mod_cast hkey.symm

theorem flatten_map_singleton (l : List Char) : (l.map (fun c => [c])).flatten = l := by
  induction l with
  | nil => rfl
  | cons c cs ih => simp [ih]

theorem pyJoin_singletons (s : String) :
    pyJoin (s.data.map (fun c => String.mk [c])) = s := by
  unfold pyJoin
  cases s with
  | mk data =>
    simp only [List.map_map]
    have hcomp : (String.data ∘ fun c => String.mk [c]) = fun c => [c] := rfl
    rw [hcomp, flatten_map_singleton]

theorem pyJoin_digitizeF (w : Bool × ℚ) (p : ℕ) :
    pyJoin (digitizeF w p) = formatFixedSM w.1 w.2 p :=
  pyJoin_singletons _

theorem roundHalfEven_cast_div_mul (n p : ℕ) :
    (roundHalfEven ((n : ℚ) / 10 ^ p * 10 ^ p)).toNat = n := by
  have h : ((n : ℚ) / 10 ^ p * 10 ^ p) = ((n : ℤ) : ℚ) := by
    have hPow : ((10 : ℚ)) ^ p ≠ 0 := by positivity
    field_simp
  rw [h, roundHalfEven_intCast]
  simp

/-- **C9** (digitizer idempotence): for every real `v` and precision
`p ≥ 0`, `digitize(parse(digitize(v, p)), p) == digitize(v, p)`, where
`parse` joins the single-character tokens back into a string and reads it
as a real (float) number.  The parsed float keeps its sign bit (Python's
`float("-0.00")` is `-0.0`), which is what makes the outer `digitize`
reproduce the leading `-` for negative values that round to zero. -/
theorem claim_C9_digitizer_idempotence (v : ℚ) (p : ℕ) :
    ∃ w : Bool × ℚ, pyFloatSM? (pyJoin (split_numeric v p)) = some w ∧
      digitizeF w p = split_numeric v p := by
  refine ⟨(decide (v < 0), ((roundHalfEven (|v| * 10 ^ p)).toNat : ℚ) / 10 ^ p), ?_, ?_⟩
  · rw [split_numeric, pyJoin_digitizeF]
    exact pyFloatSM_formatFixedSM (decide (v < 0)) |v| p
  · rw [split_numeric]
    unfold digitizeF
    have hfmt : formatFixedSM (decide (v < 0))
        (((roundHalfEven (|v| * 10 ^ p)).toNat : ℚ) / 10 ^ p) p =
        formatFixedSM (decide (v < 0)) |v| p := by
      unfold formatFixedSM
      rw [roundHalfEven_cast_div_mul]
    rw [hfmt]

/-! ## The crystal entity (`MolecularCrystal`) -/

/-- The `lattice_params` dict of the source, with its six fixed keys
`a, b, c, alpha, beta, gamma`. -/
structure LatticeParams where
  a : ℚ
  b : ℚ
  c : ℚ
  alpha : ℚ
  beta : ℚ
  gamma : ℚ
deriving DecidableEq

/-- The `MolecularCrystal` entity of `org_crystal.py`.  The stored `tokens`
attribute of the source is derived data (`get_crystal_tokens`) and is kept
as a function here rather than a field; `properties` is an
insertion-ordered association list mirroring a Python dict. -/
structure MolecularCrystal where
  space_group : ℤ
  lattice_params : LatticeParams
  com_frac : ℚ × ℚ × ℚ
  rod : ℚ × ℚ × ℚ
  selfies_tokens : List String
  local_coords : Option (List (ℚ × ℚ × ℚ))
  atom_types : Option (List String)
  properties : List (String × ℚ)
deriving DecidableEq

/-- Python dict lookup `d.get(k)` on the association-list model. -/
def dictGet (k : String) (ps : List (String × ℚ)) : Option ℚ :=
  (ps.find? (fun kv => kv.1 == k)).map (fun kv => kv.2)

/-- Python dict assignment `d[k] = v`: overwrite in place if the key
exists, else append (insertion order). -/
def dictSet (ps : List (String × ℚ)) (k : String) (v : ℚ) : List (String × ℚ) :=
  if ps.any (fun kv => kv.1 == k) then
    ps.map (fun kv => if kv.1 == k then (k, v) else kv)
  else ps ++ [(k, v)]

/-! ## Encoder: `get_crystal_tokens` -/

/-- The opening sentinel token of a tag segment. -/
def openTag (tag : String) : String := "<" ++ tag ++ ">"

/-- The closing sentinel token of a tag segment. -/
def closeTag (tag : String) : String := "</" ++ tag ++ ">"

/-- One `<TAG> body </TAG>` segment of the encoder output. -/
def tagSeg (tag : String) (body : List String) : List String :=
  openTag tag :: body ++ [closeTag tag]

/-- The compound space-group token `f"{space_group}_sg"`. -/
def sgToken (z : ℤ) : String := intStr z ++ "_sg"

/-- The encoder's segments in their fixed order: `SELF` (identity tokens
verbatim), `SG` (single compound token), then the twelve numeric fields
digitized at precisions `2,2,2,1,1,1,3,3,3,2,2,2`, mirroring the loop
lists of the source. -/
def encSegs (mc : MolecularCrystal) : List (String × List String) :=
  [("SELF", mc.selfies_tokens),
   ("SG", [sgToken mc.space_group]),
   ("A", split_numeric mc.lattice_params.a 2),
   ("B", split_numeric mc.lattice_params.b 2),
   ("C", split_numeric mc.lattice_params.c 2),
   ("ALPHA", split_numeric mc.lattice_params.alpha 1),
   ("BETA", split_numeric mc.lattice_params.beta 1),
   ("GAMMA", split_numeric mc.lattice_params.gamma 1),
   ("X", split_numeric mc.com_frac.1 3),
   ("Y", split_numeric mc.com_frac.2.1 3),
   ("Z", split_numeric mc.com_frac.2.2 3),
   ("R0", split_numeric mc.rod.1 2),
   ("R1", split_numeric mc.rod.2.1 2),
   ("R2", split_numeric mc.rod.2.2 2)]

/-- Concatenate `<TAG> body </TAG>` segments (the successive `tokens +=`
of the source). -/
def renderSegs : List (String × List String) → List String
  | [] => []
  | sg :: rest => tagSeg sg.1 sg.2 ++ renderSegs rest

/-- `MolecularCrystal.get_crystal_tokens` of the source.  No other data
(properties, molecule geometry) is emitted. -/
def get_crystal_tokens (mc : MolecularCrystal) : List String :=
  renderSegs (encSegs mc)

/-! ## Decoder: `from_tokens` -/

/-- Python exception values the modelled code can produce, plus the two
spec-level error kinds (`missingTag`, `unsupportedSpaceGroup`) that the
spec's error taxonomy names but the source never constructs (the source
defines no custom exception classes). -/
inductive PyErr where
  | indexError : PyErr
  | valueError : String → PyErr
  | keyError : ℤ → PyErr
  | linAlgError : PyErr
  | missingTag : String → PyErr
  | unsupportedSpaceGroup : ℤ → PyErr
deriving DecidableEq

/-- Split a token list at the first occurrence of the token `x`. -/
def breakAt (x : String) : List String → Option (List String × List String)
  | [] => none
  | t :: ts =>
    if t = x then some ([], ts)
    else (breakAt x ts).map (fun pr => (t :: pr.1, pr.2))

/-- The decoder's `extract(tag)`: body of the first
`<TAG> ... </TAG>` occurrence, `[]` when the tag is absent.  The source
implements this as a non-greedy regex over `' '.join(tokens)`; scanning
the token list for the sentinel tokens is equivalent for token sequences
whose tokens contain no space and no embedded tag text (all vocabulary
tokens), as the spec notes. -/
def extract (tag : String) (tokens : List String) : List String :=
  ((breakAt (openTag tag) tokens).bind
    (fun pr => (breakAt (closeTag tag) pr.2).map (fun pr2 => pr2.1))).getD []

/-- Python's `sg_tok.replace('_sg', '')`: remove every (non-overlapping,
left-to-right) occurrence of the three characters `_sg`. -/
def removeSg : List Char → List Char
  | [] => []
  | '_' :: 's' :: 'g' :: rest => removeSg rest
  | c :: rest => c :: removeSg rest

/-- `float(''.join(extract(tag)))` with the `ValueError` of an unparsable
(or empty) join modelled as an `Except` error. -/
def parseTagFloat (tag : String) (tokens : List String) : Except PyErr ℚ :=
  match pyFloat? (pyJoin (extract tag tokens)) with
  | none => Except.error (PyErr.valueError (pyJoin (extract tag tokens)))
  | some v => Except.ok v

/-- The lenient `LE`/`LE_HULL` recovery of `from_tokens`: a present,
numeric tag body sets the property; an absent tag or an unparsable body
leaves the dict unchanged (the `except ValueError: pass` of the source). -/
def addProp (tokens : List String) (key : String) (ps : List (String × ℚ)) :
    List (String × ℚ) :=
  match extract key tokens with
  | [] => ps
  | b :: bs =>
    match pyFloat? (pyJoin (b :: bs)) with
    | some v => dictSet ps key v
    | none => ps

/-- `MolecularCrystal.from_tokens` of the source.  The failure at the
`extract('SG')[0]` subscript of an empty extraction is the builtin
`IndexError`; the failures of `int(...)`/`float(...)` are `ValueError`s
carrying the offending string.  `local_coords`/`atom_types` are left
unset; `properties` starts from the caller-supplied dict and then
receives `LE` and `LE_HULL` leniently. -/
def from_tokens (tokens : List String) (properties : List (String × ℚ)) :
    Except PyErr MolecularCrystal :=
  let selfies := extract "SELF" tokens
  match extract "SG" tokens with
  | [] => Except.error PyErr.indexError
  | sg_tok :: _ =>
    match pyInt? (String.mk (removeSg sg_tok.data)) with
    | none => Except.error (PyErr.valueError (String.mk (removeSg sg_tok.data)))
    | some sg => do
      let a ← parseTagFloat "A" tokens
      let b ← parseTagFloat "B" tokens
      let c ← parseTagFloat "C" tokens
      let alpha ← parseTagFloat "ALPHA" tokens
      let beta ← parseTagFloat "BETA" tokens
      let gamma ← parseTagFloat "GAMMA" tokens
      let x ← parseTagFloat "X" tokens
      let y ← parseTagFloat "Y" tokens
      let z ← parseTagFloat "Z" tokens
      let r0 ← parseTagFloat "R0" tokens
      let r1 ← parseTagFloat "R1" tokens
      let r2 ← parseTagFloat "R2" tokens
      Except.ok
        { space_group := sg
          lattice_params := ⟨a, b, c, alpha, beta, gamma⟩
          com_frac := (x, y, z)
          rod := (r0, r1, r2)
          selfies_tokens := selfies
          local_coords := none
          atom_types := none
          properties := addProp tokens "LE_HULL" (addProp tokens "LE" properties) }

/-! ## Shape lemmas about tokens and sentinels -/

/-- A structurally valid entity: every identity (SELFIES) token is free of
`<` and of spaces, so it can collide neither with a tag sentinel token nor
with tag-boundary detection on the space-joined text.  All tokens of the
SELFIES alphabet in the vocabulary satisfy this. -/
def ValidStruct (mc : MolecularCrystal) : Prop :=
  ∀ t ∈ mc.selfies_tokens, '<' ∉ t.data ∧ ' ' ∉ t.data

instance (mc : MolecularCrystal) : Decidable (ValidStruct mc) := by
  unfold ValidStruct
  infer_instance

theorem openTag_data (tag : String) : (openTag tag).data = '<' :: (tag.data ++ ['>']) := by
  have h1 : (openTag tag).data = ("<" ++ tag).data ++ (">" : String).data := by
    unfold openTag
    rw [← String.data_append]
  rw [h1, String.data_append]
  rfl

theorem closeTag_data (tag : String) :
    (closeTag tag).data = '<' :: '/' :: (tag.data ++ ['>']) := by
  have h1 : (closeTag tag).data = ("</" ++ tag).data ++ (">" : String).data := by
    unfold closeTag
    rw [← String.data_append]
  rw [h1, String.data_append]
  rfl

theorem openTag_inj {a b : String} (h : openTag a = openTag b) : a = b := by
  have hd : (openTag a).data = (openTag b).data := by rw [h]
  rw [openTag_data, openTag_data] at hd
  have h2 : a.data ++ ['>'] = b.data ++ ['>'] := by
    injection hd
  have h3 : a.data = b.data := List.append_cancel_right h2
  exact String.ext h3

theorem openTag_ne_closeTag {a b : String} (ha : '/' ∉ a.data) :
    openTag a ≠ closeTag b := by
  intro h
  have hd : (openTag a).data = (closeTag b).data := by rw [h]
  rw [openTag_data, closeTag_data] at hd
  have h2 : a.data ++ ['>'] = '/' :: (b.data ++ ['>']) := by
    injection hd
  cases hc : a.data with
  | nil => rw [hc] at h2; simp at h2
  | cons c cs =>
    rw [hc] at h2
    have hcs : c = '/' := by injection h2
    rw [hc, hcs] at ha
    exact ha (List.mem_cons_self _ _)

theorem openTag_getLast (tag : String) : (openTag tag).data.getLast? = some '>' := by
  rw [openTag_data, ← List.cons_append]
  exact List.getLast?_concat _

theorem closeTag_getLast (tag : String) : (closeTag tag).data.getLast? = some '>' := by
  rw [closeTag_data, ← List.cons_append, ← List.cons_append]
  exact List.getLast?_concat _

theorem sgToken_data (z : ℤ) : (sgToken z).data = (intStr z).data ++ ['_', 's', 'g'] := by
  unfold sgToken
  rw [String.data_append]

theorem sgToken_getLast (z : ℤ) : (sgToken z).data.getLast? = some 'g' := by
  rw [sgToken_data]
  have h : (intStr z).data ++ ['_', 's', 'g'] = ((intStr z).data ++ ['_', 's']) ++ ['g'] := by
    simp
  rw [h]
  exact List.getLast?_concat _

theorem sgToken_ne_openTag (z : ℤ) (tag : String) : sgToken z ≠ openTag tag := by
  intro h
  have h1 := sgToken_getLast z
  rw [h, openTag_getLast tag] at h1
  exact absurd h1 (by decide)

theorem sgToken_ne_closeTag (z : ℤ) (tag : String) : sgToken z ≠ closeTag tag := by
  intro h
  have h1 := sgToken_getLast z
  rw [h, closeTag_getLast tag] at h1
  exact absurd h1 (by decide)

theorem openTag_ne_sgToken (tag : String) (z : ℤ) : openTag tag ≠ sgToken z :=
  fun h => sgToken_ne_openTag z tag h.symm

theorem closeTag_ne_sgToken (tag : String) (z : ℤ) : closeTag tag ≠ sgToken z :=
  fun h => sgToken_ne_closeTag z tag h.symm

theorem length_mem_split_numeric {s : String} {v : ℚ} {p : ℕ}
    (h : s ∈ split_numeric v p) : s.length = 1 := by
  unfold split_numeric digitizeF at h
  rw [List.mem_map] at h
  obtain ⟨c, _, rfl⟩ := h
  rfl

theorem openTag_length (tag : String) : (openTag tag).length = tag.length + 2 := by
  have he : openTag tag = ⟨'<' :: (tag.data ++ ['>'])⟩ := String.ext (openTag_data tag)
  cases tag with
  | mk d =>
    rw [he]
    simp [String.length_mk]

theorem closeTag_length (tag : String) : (closeTag tag).length = tag.length + 3 := by
  have he : closeTag tag = ⟨'<' :: '/' :: (tag.data ++ ['>'])⟩ :=
    String.ext (closeTag_data tag)
  cases tag with
  | mk d =>
    rw [he]
    simp [String.length_mk]

theorem openTag_not_mem_numeric (tag : String) (v : ℚ) (p : ℕ) :
    openTag tag ∉ split_numeric v p := by
  intro h
  have h1 := length_mem_split_numeric h
  rw [openTag_length] at h1
  omega

theorem closeTag_not_mem_numeric (tag : String) (v : ℚ) (p : ℕ) :
    closeTag tag ∉ split_numeric v p := by
  intro h
  have h1 := length_mem_split_numeric h
  rw [closeTag_length] at h1
  omega

theorem not_mem_selfies {mc : MolecularCrystal} (hv : ValidStruct mc) {u : String}
    (hu : '<' ∈ u.data) : u ∉ mc.selfies_tokens :=
  fun hm => (hv u hm).1 hu

theorem lt_mem_openTag (tag : String) : '<' ∈ (openTag tag).data := by
  rw [openTag_data]
  exact List.mem_cons_self _ _

theorem lt_mem_closeTag (tag : String) : '<' ∈ (closeTag tag).data := by
  rw [closeTag_data]
  exact List.mem_cons_self _ _

/-! ## Extraction from encoder output -/

theorem breakAt_cons_self (x : String) (ts : List String) :
    breakAt x (x :: ts) = some ([], ts) := by
  simp [breakAt]

theorem breakAt_eq_none {x : String} {l : List String} (h : x ∉ l) :
    breakAt x l = none := by
  induction l with
  | nil => rfl
  | cons t ts ih =>
    rw [List.mem_cons, not_or] at h
    simp [breakAt, Ne.symm h.1, ih h.2]

theorem breakAt_append_left {x : String} {l : List String} (h : x ∉ l) (r : List String) :
    breakAt x (l ++ r) = (breakAt x r).map (fun pr => (l ++ pr.1, pr.2)) := by
  induction l with
  | nil => cases hbr : breakAt x r <;> simp [hbr]
  | cons t ts ih =>
    rw [List.mem_cons, not_or] at h
    rw [List.cons_append]
    simp only [breakAt, if_neg (Ne.symm h.1), ih h.2]
    cases hbr : breakAt x r <;> simp [hbr]

theorem extract_append_left {tag : String} {pre : List String}
    (h : openTag tag ∉ pre) (ts : List String) :
    extract tag (pre ++ ts) = extract tag ts := by
  unfold extract
  rw [breakAt_append_left h]
  cases hbr : breakAt (openTag tag) ts with
  | none => simp
  | some pr => simp

theorem extract_nil (tag : String) : extract tag [] = [] := rfl

theorem extract_tagSeg {tag : String} {body : List String}
    (h : closeTag tag ∉ body) (rest : List String) :
    extract tag (tagSeg tag body ++ rest) = body := by
  unfold extract tagSeg
  have hshape : (openTag tag :: body ++ [closeTag tag]) ++ rest =
      openTag tag :: (body ++ closeTag tag :: rest) := by
    simp
  rw [hshape, breakAt_cons_self]
  have hbr2 : breakAt (closeTag tag) (body ++ closeTag tag :: rest) =
      some (body, rest) := by
    rw [breakAt_append_left h, breakAt_cons_self]
    simp
  simp [hbr2]

theorem renderSegs_cons (sg : String × List String) (rest : List (String × List String)) :
    renderSegs (sg :: rest) = tagSeg sg.1 sg.2 ++ renderSegs rest := rfl

theorem extract_renderSegs_skip {tag x : String} {body : List String}
    (hnm : openTag tag ∉ tagSeg x body) (rest : List (String × List String)) :
    extract tag (renderSegs ((x, body) :: rest)) = extract tag (renderSegs rest) := by
  rw [renderSegs_cons]
  exact extract_append_left hnm _

theorem extract_renderSegs_here {tag : String} {body : List String}
    (h : closeTag tag ∉ body) (rest : List (String × List String)) :
    extract tag (renderSegs ((tag, body) :: rest)) = body := by
  rw [renderSegs_cons]
  exact extract_tagSeg h _

theorem openTag_not_mem_tagSeg {tag x : String} {body : List String}
    (hxt : openTag tag ≠ openTag x) (hsl : '/' ∉ tag.data)
    (hbody : openTag tag ∉ body) : openTag tag ∉ tagSeg x body := by
  unfold tagSeg
  intro hmem
  simp only [List.mem_cons, List.mem_append, List.mem_singleton] at hmem
  rcases hmem with (h | h) | h | h
  · exact hxt h
  · exact hbody h
  · exact openTag_ne_closeTag hsl h
  · exact absurd h (List.not_mem_nil _)

theorem openTag_ne_openTag {tag x : String} (h : tag ≠ x) : openTag tag ≠ openTag x :=
  fun he => h (openTag_inj he)

theorem extract_skip_selfiesSeg {mc : MolecularCrystal} (hv : ValidStruct mc)
    (tag x : String) (hxt : tag ≠ x) (hsl : '/' ∉ tag.data)
    (rest : List (String × List String)) :
    extract tag (renderSegs ((x, mc.selfies_tokens) :: rest)) =
      extract tag (renderSegs rest) :=
  extract_renderSegs_skip
    (openTag_not_mem_tagSeg (openTag_ne_openTag hxt) hsl
      (not_mem_selfies hv (lt_mem_openTag tag))) rest

theorem extract_skip_sgSeg (tag x : String) {z : ℤ}
    (hxt : tag ≠ x) (hsl : '/' ∉ tag.data)
    (rest : List (String × List String)) :
    extract tag (renderSegs ((x, [sgToken z]) :: rest)) =
      extract tag (renderSegs rest) := by
  refine extract_renderSegs_skip (openTag_not_mem_tagSeg (openTag_ne_openTag hxt) hsl ?_) rest
  rw [List.mem_singleton]
  exact openTag_ne_sgToken tag z

theorem extract_skip_numSeg (tag x : String) {v : ℚ} {p : ℕ}
    (hxt : tag ≠ x) (hsl : '/' ∉ tag.data)
    (rest : List (String × List String)) :
    extract tag (renderSegs ((x, split_numeric v p) :: rest)) =
      extract tag (renderSegs rest) :=
  extract_renderSegs_skip
    (openTag_not_mem_tagSeg (openTag_ne_openTag hxt) hsl
      (openTag_not_mem_numeric tag v p)) rest

theorem extract_here_selfies {mc : MolecularCrystal} (hv : ValidStruct mc)
    (tag : String) (rest : List (String × List String)) :
    extract tag (renderSegs ((tag, mc.selfies_tokens) :: rest)) = mc.selfies_tokens :=
  extract_renderSegs_here (not_mem_selfies hv (lt_mem_closeTag tag)) rest

theorem extract_here_sg (tag : String) {z : ℤ} (rest : List (String × List String)) :
    extract tag (renderSegs ((tag, [sgToken z]) :: rest)) = [sgToken z] := by
  refine extract_renderSegs_here ?_ rest
  rw [List.mem_singleton]
  exact closeTag_ne_sgToken tag z

theorem extract_here_num (tag : String) {v : ℚ} {p : ℕ}
    (rest : List (String × List String)) :
    extract tag (renderSegs ((tag, split_numeric v p) :: rest)) = split_numeric v p :=
  extract_renderSegs_here (closeTag_not_mem_numeric tag v p) rest

theorem extract_renderSegs_nil (tag : String) : extract tag (renderSegs []) = [] := rfl

theorem extract_enc_SELF (mc : MolecularCrystal) (hv : ValidStruct mc) :
    extract "SELF" (get_crystal_tokens mc) = mc.selfies_tokens := by
  unfold get_crystal_tokens encSegs
  rw [
      extract_here_selfies hv "SELF" _]

theorem extract_enc_SG (mc : MolecularCrystal) (hv : ValidStruct mc) :
    extract "SG" (get_crystal_tokens mc) = [sgToken mc.space_group] := by
  unfold get_crystal_tokens encSegs
  rw [
      extract_skip_selfiesSeg hv "SG" "SELF" (by decide) (by decide) _,
      extract_here_sg "SG" _]

theorem extract_enc_A (mc : MolecularCrystal) (hv : ValidStruct mc) :
    extract "A" (get_crystal_tokens mc) = split_numeric mc.lattice_params.a 2 := by
  unfold get_crystal_tokens encSegs
  rw [
      extract_skip_selfiesSeg hv "A" "SELF" (by decide) (by decide) _,
      extract_skip_sgSeg "A" "SG" (by decide) (by decide) _,
      extract_here_num "A" _]

theorem extract_enc_B (mc : MolecularCrystal) (hv : ValidStruct mc) :
    extract "B" (get_crystal_tokens mc) = split_numeric mc.lattice_params.b 2 := by
  unfold get_crystal_tokens encSegs
  rw [
      extract_skip_selfiesSeg hv "B" "SELF" (by decide) (by decide) _,
      extract_skip_sgSeg "B" "SG" (by decide) (by decide) _,
      extract_skip_numSeg "B" "A" (by decide) (by decide) _,
      extract_here_num "B" _]

theorem extract_enc_C (mc : MolecularCrystal) (hv : ValidStruct mc) :
    extract "C" (get_crystal_tokens mc) = split_numeric mc.lattice_params.c 2 := by
  unfold get_crystal_tokens encSegs
  rw [
      extract_skip_selfiesSeg hv "C" "SELF" (by decide) (by decide) _,
      extract_skip_sgSeg "C" "SG" (by decide) (by decide) _,
      extract_skip_numSeg "C" "A" (by decide) (by decide) _,
      extract_skip_numSeg "C" "B" (by decide) (by decide) _,
      extract_here_num "C" _]

theorem extract_enc_ALPHA (mc : MolecularCrystal) (hv : ValidStruct mc) :
    extract "ALPHA" (get_crystal_tokens mc) = split_numeric mc.lattice_params.alpha 1 := by
  unfold get_crystal_tokens encSegs
  rw [
      extract_skip_selfiesSeg hv "ALPHA" "SELF" (by decide) (by decide) _,
      extract_skip_sgSeg "ALPHA" "SG" (by decide) (by decide) _,
      extract_skip_numSeg "ALPHA" "A" (by decide) (by decide) _,
      extract_skip_numSeg "ALPHA" "B" (by decide) (by decide) _,
      extract_skip_numSeg "ALPHA" "C" (by decide) (by decide) _,
      extract_here_num "ALPHA" _]

theorem extract_enc_BETA (mc : MolecularCrystal) (hv : ValidStruct mc) :
    extract "BETA" (get_crystal_tokens mc) = split_numeric mc.lattice_params.beta 1 := by
  unfold get_crystal_tokens encSegs
  rw [
      extract_skip_selfiesSeg hv "BETA" "SELF" (by decide) (by decide) _,
      extract_skip_sgSeg "BETA" "SG" (by decide) (by decide) _,
      extract_skip_numSeg "BETA" "A" (by decide) (by decide) _,
      extract_skip_numSeg "BETA" "B" (by decide) (by decide) _,
      extract_skip_numSeg "BETA" "C" (by decide) (by decide) _,
      extract_skip_numSeg "BETA" "ALPHA" (by decide) (by decide) _,
      extract_here_num "BETA" _]

theorem extract_enc_GAMMA (mc : MolecularCrystal) (hv : ValidStruct mc) :
    extract "GAMMA" (get_crystal_tokens mc) = split_numeric mc.lattice_params.gamma 1 := by
  unfold get_crystal_tokens encSegs
  rw [
      extract_skip_selfiesSeg hv "GAMMA" "SELF" (by decide) (by decide) _,
      extract_skip_sgSeg "GAMMA" "SG" (by decide) (by decide) _,
      extract_skip_numSeg "GAMMA" "A" (by decide) (by decide) _,
      extract_skip_numSeg "GAMMA" "B" (by decide) (by decide) _,
      extract_skip_numSeg "GAMMA" "C" (by decide) (by decide) _,
      extract_skip_numSeg "GAMMA" "ALPHA" (by decide) (by decide) _,
      extract_skip_numSeg "GAMMA" "BETA" (by decide) (by decide) _,
      extract_here_num "GAMMA" _]

theorem extract_enc_X (mc : MolecularCrystal) (hv : ValidStruct mc) :
    extract "X" (get_crystal_tokens mc) = split_numeric mc.com_frac.1 3 := by
  unfold get_crystal_tokens encSegs
  rw [
      extract_skip_selfiesSeg hv "X" "SELF" (by decide) (by decide) _,
      extract_skip_sgSeg "X" "SG" (by decide) (by decide) _,
      extract_skip_numSeg "X" "A" (by decide) (by decide) _,
      extract_skip_numSeg "X" "B" (by decide) (by decide) _,
      extract_skip_numSeg "X" "C" (by decide) (by decide) _,
      extract_skip_numSeg "X" "ALPHA" (by decide) (by decide) _,
      extract_skip_numSeg "X" "BETA" (by decide) (by decide) _,
      extract_skip_numSeg "X" "GAMMA" (by decide) (by decide) _,
      extract_here_num "X" _]

theorem extract_enc_Y (mc : MolecularCrystal) (hv : ValidStruct mc) :
    extract "Y" (get_crystal_tokens mc) = split_numeric mc.com_frac.2.1 3 := by
  unfold get_crystal_tokens encSegs
  rw [
      extract_skip_selfiesSeg hv "Y" "SELF" (by decide) (by decide) _,
      extract_skip_sgSeg "Y" "SG" (by decide) (by decide) _,
      extract_skip_numSeg "Y" "A" (by decide) (by decide) _,
      extract_skip_numSeg "Y" "B" (by decide) (by decide) _,
      extract_skip_numSeg "Y" "C" (by decide) (by decide) _,
      extract_skip_numSeg "Y" "ALPHA" (by decide) (by decide) _,
      extract_skip_numSeg "Y" "BETA" (by decide) (by decide) _,
      extract_skip_numSeg "Y" "GAMMA" (by decide) (by decide) _,
      extract_skip_numSeg "Y" "X" (by decide) (by decide) _,
      extract_here_num "Y" _]

theorem extract_enc_Z (mc : MolecularCrystal) (hv : ValidStruct mc) :
    extract "Z" (get_crystal_tokens mc) = split_numeric mc.com_frac.2.2 3 := by
  unfold get_crystal_tokens encSegs
  rw [
      extract_skip_selfiesSeg hv "Z" "SELF" (by decide) (by decide) _,
      extract_skip_sgSeg "Z" "SG" (by decide) (by decide) _,
      extract_skip_numSeg "Z" "A" (by decide) (by decide) _,
      extract_skip_numSeg "Z" "B" (by decide) (by decide) _,
      extract_skip_numSeg "Z" "C" (by decide) (by decide) _,
      extract_skip_numSeg "Z" "ALPHA" (by decide) (by decide) _,
      extract_skip_numSeg "Z" "BETA" (by decide) (by decide) _,
      extract_skip_numSeg "Z" "GAMMA" (by decide) (by decide) _,
      extract_skip_numSeg "Z" "X" (by decide) (by decide) _,
      extract_skip_numSeg "Z" "Y" (by decide) (by decide) _,
      extract_here_num "Z" _]

theorem extract_enc_R0 (mc : MolecularCrystal) (hv : ValidStruct mc) :
    extract "R0" (get_crystal_tokens mc) = split_numeric mc.rod.1 2 := by
  unfold get_crystal_tokens encSegs
  rw [
      extract_skip_selfiesSeg hv "R0" "SELF" (by decide) (by decide) _,
      extract_skip_sgSeg "R0" "SG" (by decide) (by decide) _,
      extract_skip_numSeg "R0" "A" (by decide) (by decide) _,
      extract_skip_numSeg "R0" "B" (by decide) (by decide) _,
      extract_skip_numSeg "R0" "C" (by decide) (by decide) _,
      extract_skip_numSeg "R0" "ALPHA" (by decide) (by decide) _,
      extract_skip_numSeg "R0" "BETA" (by decide) (by decide) _,
      extract_skip_numSeg "R0" "GAMMA" (by decide) (by decide) _,
      extract_skip_numSeg "R0" "X" (by decide) (by decide) _,
      extract_skip_numSeg "R0" "Y" (by decide) (by decide) _,
      extract_skip_numSeg "R0" "Z" (by decide) (by decide) _,
      extract_here_num "R0" _]

theorem extract_enc_R1 (mc : MolecularCrystal) (hv : ValidStruct mc) :
    extract "R1" (get_crystal_tokens mc) = split_numeric mc.rod.2.1 2 := by
  unfold get_crystal_tokens encSegs
  rw [
      extract_skip_selfiesSeg hv "R1" "SELF" (by decide) (by decide) _,
      extract_skip_sgSeg "R1" "SG" (by decide) (by decide) _,
      extract_skip_numSeg "R1" "A" (by decide) (by decide) _,
      extract_skip_numSeg "R1" "B" (by decide) (by decide) _,
      extract_skip_numSeg "R1" "C" (by decide) (by decide) _,
      extract_skip_numSeg "R1" "ALPHA" (by decide) (by decide) _,
      extract_skip_numSeg "R1" "BETA" (by decide) (by decide) _,
      extract_skip_numSeg "R1" "GAMMA" (by decide) (by decide) _,
      extract_skip_numSeg "R1" "X" (by decide) (by decide) _,
      extract_skip_numSeg "R1" "Y" (by decide) (by decide) _,
      extract_skip_numSeg "R1" "Z" (by decide) (by decide) _,
      extract_skip_numSeg "R1" "R0" (by decide) (by decide) _,
      extract_here_num "R1" _]

theorem extract_enc_R2 (mc : MolecularCrystal) (hv : ValidStruct mc) :
    extract "R2" (get_crystal_tokens mc) = split_numeric mc.rod.2.2 2 := by
  unfold get_crystal_tokens encSegs
  rw [
      extract_skip_selfiesSeg hv "R2" "SELF" (by decide) (by decide) _,
      extract_skip_sgSeg "R2" "SG" (by decide) (by decide) _,
      extract_skip_numSeg "R2" "A" (by decide) (by decide) _,
      extract_skip_numSeg "R2" "B" (by decide) (by decide) _,
      extract_skip_numSeg "R2" "C" (by decide) (by decide) _,
      extract_skip_numSeg "R2" "ALPHA" (by decide) (by decide) _,
      extract_skip_numSeg "R2" "BETA" (by decide) (by decide) _,
      extract_skip_numSeg "R2" "GAMMA" (by decide) (by decide) _,
      extract_skip_numSeg "R2" "X" (by decide) (by decide) _,
      extract_skip_numSeg "R2" "Y" (by decide) (by decide) _,
      extract_skip_numSeg "R2" "Z" (by decide) (by decide) _,
      extract_skip_numSeg "R2" "R0" (by decide) (by decide) _,
      extract_skip_numSeg "R2" "R1" (by decide) (by decide) _,
      extract_here_num "R2" _]

theorem extract_enc_LE (mc : MolecularCrystal) (hv : ValidStruct mc) :
    extract "LE" (get_crystal_tokens mc) = [] := by
  unfold get_crystal_tokens encSegs
  rw [
      extract_skip_selfiesSeg hv "LE" "SELF" (by decide) (by decide) _,
      extract_skip_sgSeg "LE" "SG" (by decide) (by decide) _,
      extract_skip_numSeg "LE" "A" (by decide) (by decide) _,
      extract_skip_numSeg "LE" "B" (by decide) (by decide) _,
      extract_skip_numSeg "LE" "C" (by decide) (by decide) _,
      extract_skip_numSeg "LE" "ALPHA" (by decide) (by decide) _,
      extract_skip_numSeg "LE" "BETA" (by decide) (by decide) _,
      extract_skip_numSeg "LE" "GAMMA" (by decide) (by decide) _,
      extract_skip_numSeg "LE" "X" (by decide) (by decide) _,
      extract_skip_numSeg "LE" "Y" (by decide) (by decide) _,
      extract_skip_numSeg "LE" "Z" (by decide) (by decide) _,
      extract_skip_numSeg "LE" "R0" (by decide) (by decide) _,
      extract_skip_numSeg "LE" "R1" (by decide) (by decide) _,
      extract_skip_numSeg "LE" "R2" (by decide) (by decide) _,
      extract_renderSegs_nil "LE"]

theorem extract_enc_LE_HULL (mc : MolecularCrystal) (hv : ValidStruct mc) :
    extract "LE_HULL" (get_crystal_tokens mc) = [] := by
  unfold get_crystal_tokens encSegs
  rw [
      extract_skip_selfiesSeg hv "LE_HULL" "SELF" (by decide) (by decide) _,
      extract_skip_sgSeg "LE_HULL" "SG" (by decide) (by decide) _,
      extract_skip_numSeg "LE_HULL" "A" (by decide) (by decide) _,
      extract_skip_numSeg "LE_HULL" "B" (by decide) (by decide) _,
      extract_skip_numSeg "LE_HULL" "C" (by decide) (by decide) _,
      extract_skip_numSeg "LE_HULL" "ALPHA" (by decide) (by decide) _,
      extract_skip_numSeg "LE_HULL" "BETA" (by decide) (by decide) _,
      extract_skip_numSeg "LE_HULL" "GAMMA" (by decide) (by decide) _,
      extract_skip_numSeg "LE_HULL" "X" (by decide) (by decide) _,
      extract_skip_numSeg "LE_HULL" "Y" (by decide) (by decide) _,
      extract_skip_numSeg "LE_HULL" "Z" (by decide) (by decide) _,
      extract_skip_numSeg "LE_HULL" "R0" (by decide) (by decide) _,
      extract_skip_numSeg "LE_HULL" "R1" (by decide) (by decide) _,
      extract_skip_numSeg "LE_HULL" "R2" (by decide) (by decide) _,
      extract_renderSegs_nil "LE_HULL"]

/-! ## Decoding the encoder's own output -/

theorem removeSg_cons_ne {c : Char} (hc : c ≠ '_') (rest : List Char) :
    removeSg (c :: rest) = c :: removeSg rest :=
  removeSg.eq_3 c rest (fun _ h _ => hc h)

theorem removeSg_append_sg : ∀ {l : List Char}, '_' ∉ l →
    removeSg (l ++ ['_', 's', 'g']) = l := by
  intro l
  induction l with
  | nil => intro _; rfl
  | cons c cs ih =>
    intro h
    rw [List.mem_cons, not_or] at h
    rw [List.cons_append, removeSg_cons_ne (Ne.symm h.1), ih h.2]

theorem mem_intStr {z : ℤ} {c : Char} (h : c ∈ (intStr z).data) :
    c = '-' ∨ c.isDigit = true := by
  unfold intStr at h
  have hall := natDigitsChars_all_digit z.natAbs
  rw [List.all_eq_true] at hall
  by_cases hz : z < 0
  · rw [if_pos hz, String.data_append] at h
    rcases List.mem_append.mp h with h1 | h2
    · left
      simpa using h1
    · right
      exact hall c h2
  · rw [if_neg hz, String.data_append] at h
    rcases List.mem_append.mp h with h1 | h2
    · exact absurd h1 (List.not_mem_nil c)
    · right
      exact hall c h2

theorem underscore_not_mem_intStr (z : ℤ) : '_' ∉ (intStr z).data := by
  intro h
  rcases mem_intStr h with h1 | h1
  · exact absurd h1 (by decide)
  · exact absurd h1 (by decide)

theorem stringMk_data (s : String) : String.mk s.data = s := by
  cases s
  rfl

theorem removeSg_sgToken (z : ℤ) :
    String.mk (removeSg (sgToken z).data) = intStr z := by
  rw [sgToken_data, removeSg_append_sg (underscore_not_mem_intStr z), stringMk_data]

/-- Rounding a real value to `p` decimal places (the comparison the
round-trip claim prescribes for each numeric field). -/
def roundQ (q : ℚ) (p : ℕ) : ℚ := ((roundHalfEven (q * 10 ^ p) : ℤ) : ℚ) / 10 ^ p

/-- The value recovered by `float(''.join(split_numeric(v, p)))`. -/
def pyDecodedNum (v : ℚ) (p : ℕ) : ℚ :=
  if v < 0 then -(((roundHalfEven (|v| * 10 ^ p)).toNat : ℚ) / 10 ^ p)
  else ((roundHalfEven (|v| * 10 ^ p)).toNat : ℚ) / 10 ^ p

theorem pyFloat_split_numeric (v : ℚ) (p : ℕ) :
    pyFloat? (pyJoin (split_numeric v p)) = some (pyDecodedNum v p) := by
  rw [split_numeric, pyJoin_digitizeF]
  unfold pyFloat?
  rw [pyFloatSM_formatFixedSM]
  unfold pyDecodedNum
  by_cases hv : v < 0 <;> simp [hv]

theorem roundQ_pyDecodedNum (v : ℚ) (p : ℕ) :
    roundQ (pyDecodedNum v p) p = roundQ v p := by
  unfold roundQ pyDecodedNum
  have hPow : ((10 : ℚ)) ^ p ≠ 0 := by positivity
  by_cases hv : v < 0
  · rw [if_pos hv]
    set k := roundHalfEven (|v| * 10 ^ p) with hk
    have hk0 : 0 ≤ k := roundHalfEven_nonneg (by positivity)
    have hcast : ((k.toNat : ℕ) : ℚ) = ((k : ℤ) : ℚ) := by
      exact_mod_cast congrArg (fun n : ℤ => (n : ℚ)) (Int.toNat_of_nonneg hk0)
    have harg : -((k.toNat : ℚ) / 10 ^ p) * 10 ^ p = ((-k : ℤ) : ℚ) := by
      rw [hcast]
      push_cast
      field_simp
    rw [harg, roundHalfEven_intCast]
    have hrv : roundHalfEven (v * 10 ^ p) = -k := by
      have habs : k = roundHalfEven (-(v * 10 ^ p)) := by
        rw [hk, abs_of_neg hv, neg_mul]
      rw [habs, roundHalfEven_neg]
      ring
    rw [hrv]
  · rw [if_neg hv]
    have h0 : 0 ≤ v := not_lt.mp hv
    set k := roundHalfEven (|v| * 10 ^ p) with hk
    have hk0 : 0 ≤ k := roundHalfEven_nonneg (by positivity)
    have hcast : ((k.toNat : ℕ) : ℚ) = ((k : ℤ) : ℚ) := by
      exact_mod_cast congrArg (fun n : ℤ => (n : ℚ)) (Int.toNat_of_nonneg hk0)
    have harg : ((k.toNat : ℚ) / 10 ^ p) * 10 ^ p = ((k : ℤ) : ℚ) := by
      rw [hcast]
      field_simp
    rw [harg, roundHalfEven_intCast]
    have hrv : roundHalfEven (v * 10 ^ p) = k := by
      rw [hk, abs_of_nonneg h0]
    rw [hrv]

theorem parseTagFloat_of_extract {tag : String} {tokens : List String} {v : ℚ} {p : ℕ}
    (h : extract tag tokens = split_numeric v p) :
    parseTagFloat tag tokens = Except.ok (pyDecodedNum v p) := by
  unfold parseTagFloat
  rw [h, pyFloat_split_numeric]

theorem except_bind_ok {ε α β : Type} (a : α) (f : α → Except ε β) :
    (Except.ok a : Except ε α) >>= f = f a := rfl

/-- The entity recovered by decoding the encoder's own output. -/
def decodedOf (mc : MolecularCrystal) : MolecularCrystal where
  space_group := mc.space_group
  lattice_params :=
    ⟨pyDecodedNum mc.lattice_params.a 2, pyDecodedNum mc.lattice_params.b 2,
      pyDecodedNum mc.lattice_params.c 2, pyDecodedNum mc.lattice_params.alpha 1,
      pyDecodedNum mc.lattice_params.beta 1, pyDecodedNum mc.lattice_params.gamma 1⟩
  com_frac :=
    (pyDecodedNum mc.com_frac.1 3, pyDecodedNum mc.com_frac.2.1 3,
      pyDecodedNum mc.com_frac.2.2 3)
  rod :=
    (pyDecodedNum mc.rod.1 2, pyDecodedNum mc.rod.2.1 2, pyDecodedNum mc.rod.2.2 2)
  selfies_tokens := mc.selfies_tokens
  local_coords := none
  atom_types := none
  properties := []

theorem from_tokens_get_crystal_tokens (mc : MolecularCrystal) (hv : ValidStruct mc) :
    from_tokens (get_crystal_tokens mc) [] = Except.ok (decodedOf mc) := by
  simp only [from_tokens, extract_enc_SELF mc hv, extract_enc_SG mc hv,
    removeSg_sgToken, pyInt_intStr,
    parseTagFloat_of_extract (extract_enc_A mc hv),
    parseTagFloat_of_extract (extract_enc_B mc hv),
    parseTagFloat_of_extract (extract_enc_C mc hv),
    parseTagFloat_of_extract (extract_enc_ALPHA mc hv),
    parseTagFloat_of_extract (extract_enc_BETA mc hv),
    parseTagFloat_of_extract (extract_enc_GAMMA mc hv),
    parseTagFloat_of_extract (extract_enc_X mc hv),
    parseTagFloat_of_extract (extract_enc_Y mc hv),
    parseTagFloat_of_extract (extract_enc_Z mc hv),
    parseTagFloat_of_extract (extract_enc_R0 mc hv),
    parseTagFloat_of_extract (extract_enc_R1 mc hv),
    parseTagFloat_of_extract (extract_enc_R2 mc hv),
    except_bind_ok, addProp, extract_enc_LE mc hv, extract_enc_LE_HULL mc hv]
  rfl

/-- A valid structure carrying the property `LE = 1.5`, which the encoder
does not emit. -/
def c1Cex : MolecularCrystal where
  space_group := 14
  lattice_params := ⟨10, 10, 10, 90, 90, 90⟩
  com_frac := (0, 0, 0)
  rod := (0, 0, 0)
  selfies_tokens := ["[C]"]
  local_coords := none
  atom_types := none
  properties := [("LE", 3/2)]

/-- **C1, counterexample**: the claim `decode(encode(s)) == s` with a strict
round trip for `properties["LE"]` fails on the code: the encoder never
emits `<LE>`, and `from_tokens` is called with no extra properties, so a
structure with `properties = {LE: 1.5}` decodes to one whose `LE` key is
absent. -/
theorem claim_C1_counterexample :
    (from_tokens (get_crystal_tokens c1Cex) []).map
        (fun m => dictGet "LE" m.properties) = Except.ok none ∧
      dictGet "LE" c1Cex.properties = some (3/2) := by
  constructor
  · rw [from_tokens_get_crystal_tokens c1Cex (by decide)]
    rfl
  · rfl

/-- **C1 (amended)**: for every valid structure with *empty* properties,
`decode(encode(s))` succeeds and reproduces `space_group` and
`identity_tokens` exactly, reproduces every real field after rounding to
its declared precision (2,2,2,1,1,1,3,3,3,2,2,2 decimals), and returns
empty properties.  (The unamended claim fails for structures carrying
`LE`/`LE_HULL`, because the encoder does not emit those tags — see the
counterexample.) -/
theorem claim_C1_roundtrip_amended (mc : MolecularCrystal) (hv : ValidStruct mc)
    (hprops : mc.properties = []) :
    ∃ mc' : MolecularCrystal,
      from_tokens (get_crystal_tokens mc) [] = Except.ok mc' ∧
      mc'.space_group = mc.space_group ∧
      mc'.selfies_tokens = mc.selfies_tokens ∧
      mc'.properties = mc.properties ∧
      roundQ mc'.lattice_params.a 2 = roundQ mc.lattice_params.a 2 ∧
      roundQ mc'.lattice_params.b 2 = roundQ mc.lattice_params.b 2 ∧
      roundQ mc'.lattice_params.c 2 = roundQ mc.lattice_params.c 2 ∧
      roundQ mc'.lattice_params.alpha 1 = roundQ mc.lattice_params.alpha 1 ∧
      roundQ mc'.lattice_params.beta 1 = roundQ mc.lattice_params.beta 1 ∧
      roundQ mc'.lattice_params.gamma 1 = roundQ mc.lattice_params.gamma 1 ∧
      roundQ mc'.com_frac.1 3 = roundQ mc.com_frac.1 3 ∧
      roundQ mc'.com_frac.2.1 3 = roundQ mc.com_frac.2.1 3 ∧
      roundQ mc'.com_frac.2.2 3 = roundQ mc.com_frac.2.2 3 ∧
      roundQ mc'.rod.1 2 = roundQ mc.rod.1 2 ∧
      roundQ mc'.rod.2.1 2 = roundQ mc.rod.2.1 2 ∧
      roundQ mc'.rod.2.2 2 = roundQ mc.rod.2.2 2 := by
  refine ⟨decodedOf mc, from_tokens_get_crystal_tokens mc hv, rfl, rfl,
    hprops.symm, ?_, ?_, ?_, ?_, ?_, ?_, ?_, ?_, ?_, ?_, ?_, ?_⟩ <;>
    exact roundQ_pyDecodedNum _ _

/-- A concrete valid structure with empty properties for the round-trip
witness. -/
def c1Wit : MolecularCrystal where
  space_group := 14
  lattice_params := ⟨123/10, 25/2, -3/8, 90, 905/10, 1204/10⟩
  com_frac := (1/3, -1/250, 0)
  rod := (-1/250, 2, 0)
  selfies_tokens := ["[C]", "[=O]"]
  local_coords := none
  atom_types := none
  properties := []

/-- Witness for the amended C1 round trip at a concrete valid structure. -/
theorem claim_C1_roundtrip_amended_witness :
    ∃ mc' : MolecularCrystal,
      from_tokens (get_crystal_tokens c1Wit) [] = Except.ok mc' ∧
      mc'.space_group = c1Wit.space_group ∧
      mc'.selfies_tokens = c1Wit.selfies_tokens ∧
      mc'.properties = c1Wit.properties ∧
      roundQ mc'.lattice_params.a 2 = roundQ c1Wit.lattice_params.a 2 ∧
      roundQ mc'.lattice_params.b 2 = roundQ c1Wit.lattice_params.b 2 ∧
      roundQ mc'.lattice_params.c 2 = roundQ c1Wit.lattice_params.c 2 ∧
      roundQ mc'.lattice_params.alpha 1 = roundQ c1Wit.lattice_params.alpha 1 ∧
      roundQ mc'.lattice_params.beta 1 = roundQ c1Wit.lattice_params.beta 1 ∧
      roundQ mc'.lattice_params.gamma 1 = roundQ c1Wit.lattice_params.gamma 1 ∧
      roundQ mc'.com_frac.1 3 = roundQ c1Wit.com_frac.1 3 ∧
      roundQ mc'.com_frac.2.1 3 = roundQ c1Wit.com_frac.2.1 3 ∧
      roundQ mc'.com_frac.2.2 3 = roundQ c1Wit.com_frac.2.2 3 ∧
      roundQ mc'.rod.1 2 = roundQ c1Wit.rod.1 2 ∧
      roundQ mc'.rod.2.1 2 = roundQ c1Wit.rod.2.1 2 ∧
      roundQ mc'.rod.2.2 2 = roundQ c1Wit.rod.2.2 2 :=
  claim_C1_roundtrip_amended c1Wit (by decide) rfl

/-- **C3, counterexample**: on a token sequence lacking `<SG>...</SG>` the
decode does fail and aborts — but with the builtin `IndexError` raised by
the `extract('SG')[0]` subscript, not with a `MissingTagError` naming
`SG`: the source defines no such error class and the `IndexError` value
carries no tag name. -/
theorem claim_C3_counterexample :
    from_tokens ["<SELF>", "[C]", "</SELF>"] [] = Except.error PyErr.indexError ∧
      from_tokens ["<SELF>", "[C]", "</SELF>"] [] ≠
        Except.error (PyErr.missingTag "SG") := by
  refine ⟨rfl, ?_⟩
  intro h
  rw [show from_tokens ["<SELF>", "[C]", "</SELF>"] [] =
    Except.error PyErr.indexError from rfl] at h
  simp at h

/-- **C3 (amended)**: for every token sequence whose `SG` extraction is
empty (tag absent or body empty), `from_tokens` aborts with the builtin
`IndexError` (from subscripting the empty extraction result) and returns
no partial entity.  The error is generic: it does not name the absent
tag. -/
theorem claim_C3_missing_sg_aborts (tokens : List String)
    (props : List (String × ℚ)) (h : extract "SG" tokens = []) :
    from_tokens tokens props = Except.error PyErr.indexError := by
  unfold from_tokens
  rw [h]

/-- Witness: a concrete sequence with no `<SG>` segment aborts with
`IndexError`. -/
theorem claim_C3_missing_sg_aborts_witness :
    from_tokens ["<SELF>", "[C]", "</SELF>", "<A>", "1", "</A>"] [] =
      Except.error PyErr.indexError :=
  claim_C3_missing_sg_aborts ["<SELF>", "[C]", "</SELF>", "<A>", "1", "</A>"] [] rfl

/-- A complete, well-formed token sequence for the lenient-decode tests
(space group 1, all numeric fields present). -/
def c6TokensGood : List String :=
  ["<SELF>", "[C]", "</SELF>", "<SG>", "1_sg", "</SG>"] ++
  ["<A>", "1", "0", ".", "0", "0", "</A>"] ++
  ["<B>", "1", "0", ".", "0", "0", "</B>"] ++
  ["<C>", "1", "0", ".", "0", "0", "</C>"] ++
  ["<ALPHA>", "9", "0", ".", "0", "</ALPHA>"] ++
  ["<BETA>", "9", "0", ".", "0", "</BETA>"] ++
  ["<GAMMA>", "9", "0", ".", "0", "</GAMMA>"] ++
  ["<X>", "0", ".", "0", "0", "0", "</X>"] ++
  ["<Y>", "0", ".", "0", "0", "0", "</Y>"] ++
  ["<Z>", "0", ".", "0", "0", "0", "</Z>"] ++
  ["<R0>", "0", ".", "0", "0", "</R0>"] ++
  ["<R1>", "0", ".", "0", "0", "</R1>"] ++
  ["<R2>", "0", ".", "0", "0", "</R2>"]

/-- The same sequence with the `<A>` body replaced by the non-numeric
`a b c`. -/
def c6TokensBadA : List String :=
  ["<SELF>", "[C]", "</SELF>", "<SG>", "1_sg", "</SG>"] ++
  ["<A>", "a", "b", "c", "</A>"] ++
  ["<B>", "1", "0", ".", "0", "0", "</B>"] ++
  ["<C>", "1", "0", ".", "0", "0", "</C>"] ++
  ["<ALPHA>", "9", "0", ".", "0", "</ALPHA>"] ++
  ["<BETA>", "9", "0", ".", "0", "</BETA>"] ++
  ["<GAMMA>", "9", "0", ".", "0", "</GAMMA>"] ++
  ["<X>", "0", ".", "0", "0", "0", "</X>"] ++
  ["<Y>", "0", ".", "0", "0", "0", "</Y>"] ++
  ["<Z>", "0", ".", "0", "0", "0", "</Z>"] ++
  ["<R0>", "0", ".", "0", "0", "</R0>"] ++
  ["<R1>", "0", ".", "0", "0", "</R1>"] ++
  ["<R2>", "0", ".", "0", "0", "</R2>"]

/-- **C6** (lenient property decode): a sequence containing
`<LE> 1 . 5 </LE>` decodes with `properties["LE"] == 1.5`; a sequence
containing `<LE> a b c </LE>` decodes successfully with the key `LE`
absent (the non-numeric value is silently dropped); by contrast a
non-numeric body in a geometric group (`<A> a b c </A>`) aborts the whole
decode with a `ValueError`. -/
theorem claim_C6_lenient_property_decode :
    ((from_tokens (c6TokensGood ++ ["<LE>", "1", ".", "5", "</LE>"]) []).map
        (fun m => dictGet "LE" m.properties) = Except.ok (some (3/2))) ∧
      ((from_tokens (c6TokensGood ++ ["<LE>", "a", "b", "c", "</LE>"]) []).map
        (fun m => dictGet "LE" m.properties) = Except.ok none) ∧
      from_tokens c6TokensBadA [] = Except.error (PyErr.valueError "abc") := by
  refine ⟨?_, rfl, rfl⟩
  have h1 : (from_tokens (c6TokensGood ++ ["<LE>", "1", ".", "5", "</LE>"]) []).map
      (fun m => dictGet "LE" m.properties) =
      Except.ok (pyFloat? (pyJoin ["1", ".", "5"])) := rfl
  rw [h1]
  have h2 : pyJoin ["1", ".", "5"] = "1.5" := rfl
  rw [h2]
  have h3 : pyFloat? "1.5" = some (3/2) := by
    simp only [pyFloat?, pyFloatSM?]
    simp +decide [stripSign, breakAtChar, digitsVal?, digitsVal, charVal, Nat.ofDigits]
    norm_num
  rw [h3]

/-- **C10**: the encoder reads only `space_group`, `lattice_params`,
`com_frac` (center), `rod` (orientation) and `selfies_tokens` (identity
tokens); two structures agreeing on those five field groups encode to
identical token sequences no matter how their `properties`,
`local_coords` or `atom_types` differ. -/
theorem claim_C10_encoding_depends_only_on_tokenized_fields
    (s t : MolecularCrystal)
    (h1 : s.space_group = t.space_group)
    (h2 : s.lattice_params = t.lattice_params)
    (h3 : s.com_frac = t.com_frac)
    (h4 : s.rod = t.rod)
    (h5 : s.selfies_tokens = t.selfies_tokens) :
    get_crystal_tokens s = get_crystal_tokens t := by
  unfold get_crystal_tokens encSegs
  rw [h1, h2, h3, h4, h5]

/-- A structure carrying properties and molecule geometry. -/
def c10A : MolecularCrystal where
  space_group := 2
  lattice_params := ⟨5, 6, 7, 90, 90, 90⟩
  com_frac := (0, 0, 0)
  rod := (0, 0, 0)
  selfies_tokens := ["[C]"]
  local_coords := some [(0, 0, 0)]
  atom_types := some ["C"]
  properties := [("LE", 1)]

/-- The same five tokenized field groups, but no properties and no
molecule geometry. -/
def c10B : MolecularCrystal where
  space_group := 2
  lattice_params := ⟨5, 6, 7, 90, 90, 90⟩
  com_frac := (0, 0, 0)
  rod := (0, 0, 0)
  selfies_tokens := ["[C]"]
  local_coords := none
  atom_types := none
  properties := []

/-- Witness: two concrete structures differing in `properties`,
`local_coords` and `atom_types` encode identically. -/
theorem claim_C10_encoding_witness :
    c10A.properties ≠ c10B.properties ∧
      c10A.local_coords ≠ c10B.local_coords ∧
      c10A.atom_types ≠ c10B.atom_types ∧
      get_crystal_tokens c10A = get_crystal_tokens c10B :=
  ⟨by decide, by decide, by decide,
    claim_C10_encoding_depends_only_on_tokenized_fields c10A c10B rfl rfl rfl rfl rfl⟩

theorem mem_renderSegs {t : String} : ∀ {segs : List (String × List String)},
    t ∈ renderSegs segs → ∃ sg ∈ segs, t = openTag sg.1 ∨ t ∈ sg.2 ∨ t = closeTag sg.1 := by
  intro segs
  induction segs with
  | nil =>
    intro h
    exact absurd h (List.not_mem_nil t)
  | cons sg rest ih =>
    intro h
    rw [renderSegs_cons, List.mem_append] at h
    rcases h with h | h
    · unfold tagSeg at h
      simp only [List.mem_cons, List.mem_append, List.mem_singleton] at h
      rcases h with (h | h) | h | h
      · exact ⟨sg, List.mem_cons_self _ _, Or.inl h⟩
      · exact ⟨sg, List.mem_cons_self _ _, Or.inr (Or.inl h)⟩
      · exact ⟨sg, List.mem_cons_self _ _, Or.inr (Or.inr h)⟩
      · exact absurd h (List.not_mem_nil t)
    · obtain ⟨sg2, hm, hc⟩ := ih h
      exact ⟨sg2, List.mem_cons_of_mem _ hm, hc⟩

theorem not_mem_encoded (mc : MolecularCrystal) (hv : ValidStruct mc) (t : String)
    (hlt : '<' ∈ t.data)
    (hlast : t.data.getLast? = some '>')
    (hlen : t.length ≠ 1)
    (hsent : ∀ x ∈ (["SELF", "SG", "A", "B", "C", "ALPHA", "BETA", "GAMMA",
        "X", "Y", "Z", "R0", "R1", "R2"] : List String),
      t ≠ openTag x ∧ t ≠ closeTag x) :
    t ∉ get_crystal_tokens mc := by
  intro hmem
  unfold get_crystal_tokens at hmem
  obtain ⟨sg, hmm, hc⟩ := mem_renderSegs hmem
  simp only [encSegs, List.mem_cons, List.not_mem_nil, or_false] at hmm
  rcases hmm with h | h | h | h | h | h | h | h | h | h | h | h | h | h
  · subst h
    rcases hc with h | h | h
    · exact (hsent "SELF" (by decide)).1 h
    · exact not_mem_selfies hv hlt h
    · exact (hsent "SELF" (by decide)).2 h
  · subst h
    rcases hc with h | h | h
    · exact (hsent "SG" (by decide)).1 h
    · rw [List.mem_singleton] at h
      rw [h] at hlast
      rw [sgToken_getLast] at hlast
      exact absurd hlast (by decide)
    · exact (hsent "SG" (by decide)).2 h
  · subst h
    rcases hc with h | h | h
    · exact (hsent "A" (by decide)).1 h
    · exact hlen (length_mem_split_numeric h)
    · exact (hsent "A" (by decide)).2 h
  · subst h
    rcases hc with h | h | h
    · exact (hsent "B" (by decide)).1 h
    · exact hlen (length_mem_split_numeric h)
    · exact (hsent "B" (by decide)).2 h
  · subst h
    rcases hc with h | h | h
    · exact (hsent "C" (by decide)).1 h
    · exact hlen (length_mem_split_numeric h)
    · exact (hsent "C" (by decide)).2 h
  · subst h
    rcases hc with h | h | h
    · exact (hsent "ALPHA" (by decide)).1 h
    · exact hlen (length_mem_split_numeric h)
    · exact (hsent "ALPHA" (by decide)).2 h
  · subst h
    rcases hc with h | h | h
    · exact (hsent "BETA" (by decide)).1 h
    · exact hlen (length_mem_split_numeric h)
    · exact (hsent "BETA" (by decide)).2 h
  · subst h
    rcases hc with h | h | h
    · exact (hsent "GAMMA" (by decide)).1 h
    · exact hlen (length_mem_split_numeric h)
    · exact (hsent "GAMMA" (by decide)).2 h
  · subst h
    rcases hc with h | h | h
    · exact (hsent "X" (by decide)).1 h
    · exact hlen (length_mem_split_numeric h)
    · exact (hsent "X" (by decide)).2 h
  · subst h
    rcases hc with h | h | h
    · exact (hsent "Y" (by decide)).1 h
    · exact hlen (length_mem_split_numeric h)
    · exact (hsent "Y" (by decide)).2 h
  · subst h
    rcases hc with h | h | h
    · exact (hsent "Z" (by decide)).1 h
    · exact hlen (length_mem_split_numeric h)
    · exact (hsent "Z" (by decide)).2 h
  · subst h
    rcases hc with h | h | h
    · exact (hsent "R0" (by decide)).1 h
    · exact hlen (length_mem_split_numeric h)
    · exact (hsent "R0" (by decide)).2 h
  · subst h
    rcases hc with h | h | h
    · exact (hsent "R1" (by decide)).1 h
    · exact hlen (length_mem_split_numeric h)
    · exact (hsent "R1" (by decide)).2 h
  · subst h
    rcases hc with h | h | h
    · exact (hsent "R2" (by decide)).1 h
    · exact hlen (length_mem_split_numeric h)
    · exact (hsent "R2" (by decide)).2 h

/-- **C2**: the encoder emits, strictly in this fixed order, the `<SELF>`
segment with identity tokens verbatim, the `<SG>` segment with the single
compound token `"{space_group}_sg"`, then one tag segment for each of
`A,B,C` (precision 2), `ALPHA,BETA,GAMMA` (precision 1), `X,Y,Z`
(precision 3), `R0,R1,R2` (precision 2); and it never emits `<LE>` or
`<LE_HULL>` segments, whatever the properties of the structure. -/
theorem claim_C2_encoder_fixed_order (mc : MolecularCrystal) (hv : ValidStruct mc) :
    get_crystal_tokens mc =
      ["<SELF>"] ++ mc.selfies_tokens ++ ["</SELF>"] ++
      ["<SG>", intStr mc.space_group ++ "_sg", "</SG>"] ++
      ["<A>"] ++ split_numeric mc.lattice_params.a 2 ++ ["</A>"] ++
      ["<B>"] ++ split_numeric mc.lattice_params.b 2 ++ ["</B>"] ++
      ["<C>"] ++ split_numeric mc.lattice_params.c 2 ++ ["</C>"] ++
      ["<ALPHA>"] ++ split_numeric mc.lattice_params.alpha 1 ++ ["</ALPHA>"] ++
      ["<BETA>"] ++ split_numeric mc.lattice_params.beta 1 ++ ["</BETA>"] ++
      ["<GAMMA>"] ++ split_numeric mc.lattice_params.gamma 1 ++ ["</GAMMA>"] ++
      ["<X>"] ++ split_numeric mc.com_frac.1 3 ++ ["</X>"] ++
      ["<Y>"] ++ split_numeric mc.com_frac.2.1 3 ++ ["</Y>"] ++
      ["<Z>"] ++ split_numeric mc.com_frac.2.2 3 ++ ["</Z>"] ++
      ["<R0>"] ++ split_numeric mc.rod.1 2 ++ ["</R0>"] ++
      ["<R1>"] ++ split_numeric mc.rod.2.1 2 ++ ["</R1>"] ++
      ["<R2>"] ++ split_numeric mc.rod.2.2 2 ++ ["</R2>"] ∧
      "<LE>" ∉ get_crystal_tokens mc ∧ "</LE>" ∉ get_crystal_tokens mc ∧
      "<LE_HULL>" ∉ get_crystal_tokens mc ∧ "</LE_HULL>" ∉ get_crystal_tokens mc := by
  refine ⟨?_, ?_, ?_, ?_, ?_⟩
  · have hoSELF : ("<SELF>" : String) = openTag "SELF" := rfl
    have hcSELF : ("</SELF>" : String) = closeTag "SELF" := rfl
    have hoSG : ("<SG>" : String) = openTag "SG" := rfl
    have hcSG : ("</SG>" : String) = closeTag "SG" := rfl
    have hoA : ("<A>" : String) = openTag "A" := rfl
    have hcA : ("</A>" : String) = closeTag "A" := rfl
    have hoB : ("<B>" : String) = openTag "B" := rfl
    have hcB : ("</B>" : String) = closeTag "B" := rfl
    have hoC : ("<C>" : String) = openTag "C" := rfl
    have hcC : ("</C>" : String) = closeTag "C" := rfl
    have hoALPHA : ("<ALPHA>" : String) = openTag "ALPHA" := rfl
    have hcALPHA : ("</ALPHA>" : String) = closeTag "ALPHA" := rfl
    have hoBETA : ("<BETA>" : String) = openTag "BETA" := rfl
    have hcBETA : ("</BETA>" : String) = closeTag "BETA" := rfl
    have hoGAMMA : ("<GAMMA>" : String) = openTag "GAMMA" := rfl
    have hcGAMMA : ("</GAMMA>" : String) = closeTag "GAMMA" := rfl
    have hoX : ("<X>" : String) = openTag "X" := rfl
    have hcX : ("</X>" : String) = closeTag "X" := rfl
    have hoY : ("<Y>" : String) = openTag "Y" := rfl
    have hcY : ("</Y>" : String) = closeTag "Y" := rfl
    have hoZ : ("<Z>" : String) = openTag "Z" := rfl
    have hcZ : ("</Z>" : String) = closeTag "Z" := rfl
    have hoR0 : ("<R0>" : String) = openTag "R0" := rfl
    have hcR0 : ("</R0>" : String) = closeTag "R0" := rfl
    have hoR1 : ("<R1>" : String) = openTag "R1" := rfl
    have hcR1 : ("</R1>" : String) = closeTag "R1" := rfl
    have hoR2 : ("<R2>" : String) = openTag "R2" := rfl
    have hcR2 : ("</R2>" : String) = closeTag "R2" := rfl
    rw [hoSELF, hcSELF, hoSG, hcSG, hoA, hcA, hoB, hcB, hoC, hcC, hoALPHA, hcALPHA, hoBETA, hcBETA, hoGAMMA, hcGAMMA, hoX, hcX, hoY, hcY, hoZ, hcZ, hoR0, hcR0, hoR1, hcR1, hoR2, hcR2]
    simp [get_crystal_tokens, encSegs, renderSegs, tagSeg, sgToken]
  · exact not_mem_encoded mc hv "<LE>" (by decide) (by decide) (by decide) (by decide)
  · exact not_mem_encoded mc hv "</LE>" (by decide) (by decide) (by decide) (by decide)
  · exact not_mem_encoded mc hv "<LE_HULL>" (by decide) (by decide) (by decide) (by decide)
  · exact not_mem_encoded mc hv "</LE_HULL>" (by decide) (by decide) (by decide) (by decide)

/-- A concrete structure (with `LE` present in properties) for the C2
witness. -/
def c2Wit : MolecularCrystal where
  space_group := 1
  lattice_params := ⟨10, 10, 10, 90, 90, 90⟩
  com_frac := (0, 0, 0)
  rod := (0, 0, 0)
  selfies_tokens := ["[C]"]
  local_coords := none
  atom_types := none
  properties := [("LE", 3/2), ("LE_HULL", 1)]

/-- Witness: the C2 statement at a concrete structure that carries `LE`
and `LE_HULL` properties. -/
theorem claim_C2_encoder_fixed_order_witness :
    get_crystal_tokens c2Wit =
      ["<SELF>"] ++ c2Wit.selfies_tokens ++ ["</SELF>"] ++
      ["<SG>", intStr c2Wit.space_group ++ "_sg", "</SG>"] ++
      ["<A>"] ++ split_numeric c2Wit.lattice_params.a 2 ++ ["</A>"] ++
      ["<B>"] ++ split_numeric c2Wit.lattice_params.b 2 ++ ["</B>"] ++
      ["<C>"] ++ split_numeric c2Wit.lattice_params.c 2 ++ ["</C>"] ++
      ["<ALPHA>"] ++ split_numeric c2Wit.lattice_params.alpha 1 ++ ["</ALPHA>"] ++
      ["<BETA>"] ++ split_numeric c2Wit.lattice_params.beta 1 ++ ["</BETA>"] ++
      ["<GAMMA>"] ++ split_numeric c2Wit.lattice_params.gamma 1 ++ ["</GAMMA>"] ++
      ["<X>"] ++ split_numeric c2Wit.com_frac.1 3 ++ ["</X>"] ++
      ["<Y>"] ++ split_numeric c2Wit.com_frac.2.1 3 ++ ["</Y>"] ++
      ["<Z>"] ++ split_numeric c2Wit.com_frac.2.2 3 ++ ["</Z>"] ++
      ["<R0>"] ++ split_numeric c2Wit.rod.1 2 ++ ["</R0>"] ++
      ["<R1>"] ++ split_numeric c2Wit.rod.2.1 2 ++ ["</R1>"] ++
      ["<R2>"] ++ split_numeric c2Wit.rod.2.2 2 ++ ["</R2>"] ∧
      "<LE>" ∉ get_crystal_tokens c2Wit ∧ "</LE>" ∉ get_crystal_tokens c2Wit ∧
      "<LE_HULL>" ∉ get_crystal_tokens c2Wit ∧ "</LE_HULL>" ∉ get_crystal_tokens c2Wit :=
  claim_C2_encoder_fixed_order c2Wit (by decide)

/-! ## Geometry engine -/

/-- `abs_cap(val, max_abs_val=1)` of the source: returns the value with
its absolute value capped at `max_abs_val`,
`max(min(val, max_abs_val), -max_abs_val)`. -/
def abs_cap (val : ℚ) (max_abs_val : ℚ) : ℚ :=
  max (min val max_abs_val) (-max_abs_val)

/-- A 3-vector of (exact) reals. -/
structure V3 where
  x : ℚ
  y : ℚ
  z : ℚ
deriving DecidableEq

/-- A 3×3 matrix as three rows (numpy row-major). -/
structure M3 where
  r0 : V3
  r1 : V3
  r2 : V3
deriving DecidableEq

/-- The identity matrix `np.eye(3)`. -/
def idM3 : M3 := ⟨⟨1, 0, 0⟩, ⟨0, 1, 0⟩, ⟨0, 0, 1⟩⟩

/-- A crystal's 3-tuple field as a `V3`. -/
def toV3 (t : ℚ × ℚ × ℚ) : V3 := ⟨t.1, t.2.1, t.2.2⟩

/-- Row-vector times matrix, `np.dot(v, M)`. -/
def vecMat (v : V3) (m : M3) : V3 :=
  ⟨v.x * m.r0.x + v.y * m.r1.x + v.z * m.r2.x,
    v.x * m.r0.y + v.y * m.r1.y + v.z * m.r2.y,
    v.x * m.r0.z + v.y * m.r1.z + v.z * m.r2.z⟩

/-- Matrix times column vector, `M @ v`. -/
def matVec (m : M3) (v : V3) : V3 :=
  ⟨m.r0.x * v.x + m.r0.y * v.y + m.r0.z * v.z,
    m.r1.x * v.x + m.r1.y * v.y + m.r1.z * v.z,
    m.r2.x * v.x + m.r2.y * v.y + m.r2.z * v.z⟩

/-- Componentwise vector addition. -/
def addV3 (u v : V3) : V3 := ⟨u.x + v.x, u.y + v.y, u.z + v.z⟩

/-- Determinant of a 3×3 matrix (`np.linalg.inv` raises `LinAlgError`
exactly when it vanishes). -/
def det3 (m : M3) : ℚ :=
  m.r0.x * (m.r1.y * m.r2.z - m.r1.z * m.r2.y)
    - m.r0.y * (m.r1.x * m.r2.z - m.r1.z * m.r2.x)
    + m.r0.z * (m.r1.x * m.r2.y - m.r1.y * m.r2.x)

/-- Inverse of a 3×3 matrix by cofactors (`np.linalg.inv` for a
nonsingular matrix). -/
def inv3 (m : M3) : M3 :=
  let d := det3 m
  ⟨⟨(m.r1.y * m.r2.z - m.r1.z * m.r2.y) / d,
      (m.r0.z * m.r2.y - m.r0.y * m.r2.z) / d,
      (m.r0.y * m.r1.z - m.r0.z * m.r1.y) / d⟩,
    ⟨(m.r1.z * m.r2.x - m.r1.x * m.r2.z) / d,
      (m.r0.x * m.r2.z - m.r0.z * m.r2.x) / d,
      (m.r0.z * m.r1.x - m.r0.x * m.r1.z) / d⟩,
    ⟨(m.r1.x * m.r2.y - m.r1.y * m.r2.x) / d,
      (m.r0.y * m.r2.x - m.r0.x * m.r2.y) / d,
      (m.r0.x * m.r1.y - m.r0.y * m.r1.x) / d⟩⟩

/-- The clamped intermediate of `lattice_params_to_matrix`:
`abs_cap((cos α · cos β − cos γ)/(sin α · sin β))`, the argument later
passed to `arccos`. -/
def gammaStarArg (cosd sind : ℚ → ℚ) (alpha beta gamma : ℚ) : ℚ :=
  abs_cap ((cosd alpha * cosd beta - cosd gamma) / (sind alpha * sind beta)) 1

/-- `lattice_params_to_matrix` of the source, parametric in the
degree-trigonometric primitives `cosd`/`sind` (numpy's
`cos ∘ radians`/`sin ∘ radians`) and in `sqrtQ` (square root).  The
source computes `gamma_star = arccos(val)` and then uses only
`cos(gamma_star) = val` and `sin(gamma_star) = √(1 − val²)`; those two
identities are exact for `val ∈ [-1, 1]`, which the clamp guarantees, so
the matrix is expressed directly in terms of `val` and `sqrtQ`. -/
def lattice_params_to_matrix (cosd sind sqrtQ : ℚ → ℚ)
    (a b c alpha beta gamma : ℚ) : M3 :=
  let val := gammaStarArg cosd sind alpha beta gamma
  ⟨⟨a * sind beta, 0, a * cosd beta⟩,
    ⟨-b * sind alpha * val, b * sind alpha * sqrtQ (1 - val ^ 2), b * cosd alpha⟩,
    ⟨0, 0, c⟩⟩

/-- `cart_to_frac_numpy` of the source: `np.dot(cart, inv(lattice))`. -/
def cart_to_frac (cart : V3) (lattice : M3) : V3 := vecMat cart (inv3 lattice)

/-- `rodrigues_to_rotmat` of the source.  The guard `‖r‖ < 1e-8` is
expressed on the squared norm (`‖r‖² < 1e-16`, equivalent for exact
arithmetic).  In the general branch the source sets `θ = 2·arctan ‖r‖`
and `u = r/‖r‖`; with `t = tan(θ/2) = ‖r‖` one has exactly
`cos θ = (1 − ‖r‖²)/(1 + ‖r‖²)`, `sin θ · uᵢ = 2rᵢ/(1 + ‖r‖²)` and
`(1 − cos θ)·uᵢuⱼ = 2rᵢrⱼ/(1 + ‖r‖²)`, so every entry of the rotation
matrix is a rational function of `r`. -/
def rodrigues_to_rotmat (r : V3) : M3 :=
  let n2 := r.x ^ 2 + r.y ^ 2 + r.z ^ 2
  if n2 < 1 / 10000000000000000 then idM3
  else
    let ct := (1 - n2) / (1 + n2)
    let d := 1 + n2
    ⟨⟨ct + 2 * r.x * r.x / d, 2 * r.x * r.y / d - 2 * r.z / d,
        2 * r.x * r.z / d + 2 * r.y / d⟩,
      ⟨2 * r.y * r.x / d + 2 * r.z / d, ct + 2 * r.y * r.y / d,
        2 * r.y * r.z / d - 2 * r.x / d⟩,
      ⟨2 * r.z * r.x / d - 2 * r.y / d, 2 * r.z * r.y / d + 2 * r.x / d,
        ct + 2 * r.z * r.z / d⟩⟩

/-- `rotmat_to_rodrigues` of the source, parametric in `arccosQ`
(numpy's `arccos`).  The clamp `max(min(t, 1), -1)` is kept verbatim; in
the general branch the source returns `axis · tan(θ/2)` with
`axis = (R₂₁−R₁₂, R₀₂−R₂₀, R₁₀−R₀₁)/(2 sin θ)`, and with `cos θ = t`
this equals the vector divided by `2(1 + t)` exactly. -/
def rotmat_to_rodrigues (arccosQ : ℚ → ℚ) (R : M3) : V3 :=
  let trace := R.r0.x + R.r1.y + R.r2.z
  let t := max (min ((trace - 1) / 2) 1) (-1)
  let theta := arccosQ t
  if |theta| < 1 / 100000000 then ⟨0, 0, 0⟩
  else
    let k := 1 / (2 * (1 + t))
    ⟨(R.r2.y - R.r1.z) * k, (R.r0.z - R.r2.x) * k, (R.r1.x - R.r0.y) * k⟩

theorem abs_cap_bounds (v : ℚ) : -1 ≤ abs_cap v 1 ∧ abs_cap v 1 ≤ 1 := by
  unfold abs_cap
  constructor
  · exact le_max_right _ _
  · exact max_le (min_le_right _ _) (by norm_num)

/-- **C7** (clamp correctness): for every raw intermediate ratio within
`1e-9` of the valid domain (simulating floating round-off), the clamped
value `abs_cap(·, 1)` lies in `[-1, 1]`; consequently the `arccos`
argument `gammaStarArg` computed by `lattice_params_to_matrix` lies in
`[-1, 1]` for *all* inputs, so the `arccos` is taken on its domain and
the conversion neither raises nor produces a NaN entry. -/
theorem claim_C7_clamp_correctness (v : ℚ)
    (h1 : -1 - 1 / 1000000000 ≤ v) (h2 : v ≤ 1 + 1 / 1000000000)
    (cosd sind : ℚ → ℚ) (alpha beta gamma : ℚ) :
    (-1 ≤ abs_cap v 1 ∧ abs_cap v 1 ≤ 1) ∧
      (-1 ≤ gammaStarArg cosd sind alpha beta gamma ∧
        gammaStarArg cosd sind alpha beta gamma ≤ 1) :=
  ⟨abs_cap_bounds v, abs_cap_bounds _⟩

/-- Witness for C7 at the boundary ratio `1 + 1e-10` (inside the
simulated round-off tolerance) and concrete trigonometric data. -/
theorem claim_C7_clamp_correctness_witness :
    (-1 ≤ abs_cap (1 + 1 / 10000000000) 1 ∧ abs_cap (1 + 1 / 10000000000) 1 ≤ 1) ∧
      (-1 ≤ gammaStarArg (fun _ => 0) (fun _ => 1) 90 90 90 ∧
        gammaStarArg (fun _ => 0) (fun _ => 1) 90 90 90 ≤ 1) :=
  claim_C7_clamp_correctness (1 + 1 / 10000000000) (by norm_num) (by norm_num)
    (fun _ => 0) (fun _ => 1) 90 90 90

/-- **C8** (degenerate rotation guard): `rodrigues_to_rotmat` returns the
identity matrix exactly on the zero vector (and on any vector of norm
below `1e-8`), and `rotmat_to_rodrigues` returns the zero vector exactly
on the identity matrix, for any `arccos` primitive with
`arccos 1 = 0` (true of the real function). -/
theorem claim_C8_degenerate_rotation_guard (arccosQ : ℚ → ℚ)
    (hac : arccosQ 1 = 0) :
    rodrigues_to_rotmat ⟨0, 0, 0⟩ = idM3 ∧
      (∀ r : V3, r.x ^ 2 + r.y ^ 2 + r.z ^ 2 < 1 / 10000000000000000 →
        rodrigues_to_rotmat r = idM3) ∧
      rotmat_to_rodrigues arccosQ idM3 = ⟨0, 0, 0⟩ := by
  refine ⟨?_, ?_, ?_⟩
  · unfold rodrigues_to_rotmat
    norm_num
  · intro r h
    unfold rodrigues_to_rotmat
    rw [if_pos h]
  · unfold rotmat_to_rodrigues idM3
    norm_num [hac]

/-- Witness for C8 with the constant-zero `arccos` stub (which agrees
with the real `arccos` at the only evaluated point, `1`). -/
theorem claim_C8_degenerate_rotation_guard_witness :
    rodrigues_to_rotmat ⟨0, 0, 0⟩ = idM3 ∧
      rotmat_to_rodrigues (fun _ => 0) idM3 = ⟨0, 0, 0⟩ :=
  ⟨(claim_C8_degenerate_rotation_guard (fun _ => 0) rfl).1,
    (claim_C8_degenerate_rotation_guard (fun _ => 0) rfl).2.2⟩

/-! ## CIF text serializer -/

/-- Python's `str.rstrip()`: drop trailing whitespace characters. -/
def pyRstrip (s : String) : String :=
  ⟨(s.data.reverse.dropWhile (fun c => c.isWhitespace)).reverse⟩

/-- `f"{x:.pf}"` for a rational value (no negative zero in `ℚ`). -/
def pyFormatFixed (q : ℚ) (p : ℕ) : String :=
  formatFixedSM (decide (q < 0)) |q| p

/-- Python's `f"{v}"` for a cell parameter.  Exact for integer-valued
parameters (the only kind the spec's scenarios construct; Python prints
an `int` without a decimal point); a non-integer parameter would be a
Python `float` whose shortest-round-trip `repr` is outside the rational
model, and is printed here as `num/den`. -/
def cellNumStr (q : ℚ) : String :=
  if q.den = 1 then intStr q.num
  else intStr q.num ++ "/" ++ natStr q.den

/-- `SG_OPS_TEXT` of the source: the static symmetry-operator text table,
keyed by space-group number; `none` models the `KeyError` of an absent
key. -/
def SG_OPS_TEXT : ℤ → Option String
  | 1 => some "\n1 +x,+y,+z"
  | 2 => some "\n1 -x,-y,-z\n2 +x,+y,+z"
  | 4 => some "\n1 +x,+y,+z\n2 -x,1/2+y,-z"
  | 5 => some "\n1 -x,+y,-z\n2 +x,+y,+z\n3 1/2-x,1/2+y,-z\n4 1/2+x,1/2+y,+z"
  | 7 => some "\n1 +x,+y,+z\n2 +x,-y,1/2+z"
  | 9 => some "\n1 +x,+y,+z\n2 +x,-y,1/2+z\n3 1/2+x,1/2+y,+z\n4 1/2+x,1/2-y,1/2+z"
  | 13 => some "\n1 -x,-y,-z\n2 +x,+y,+z\n3 -x,+y,1/2-z\n4 +x,-y,1/2+z"
  | 14 => some "\n1 -x,-y,-z\n2 +x,+y,+z\n3 -x,1/2+y,1/2-z\n4 +x,1/2-y,1/2+z"
  | 15 => some "\n1 -x,-y,-z\n2 +x,+y,+z\n3 -x,+y,1/2-z\n4 +x,-y,1/2+z\n5 1/2-x,1/2-y,-z\n6 1/2+x,1/2+y,+z\n7 1/2-x,1/2+y,1/2-z\n8 1/2+x,1/2-y,1/2+z"
  | 18 => some "\n1 -x,-y,+z\n2 +x,+y,+z\n3 1/2-x,1/2+y,-z\n4 1/2+x,1/2-y,-z"
  | 19 => some "\n1 +x,+y,+z\n2 -x,1/2+y,1/2-z\n3 1/2-x,-y,1/2+z\n4 1/2+x,1/2-y,-z"
  | 20 => some "\n1 +x,-y,-z\n2 +x,+y,+z\n3 -x,-y,1/2+z\n4 -x,+y,1/2-z\n5 1/2+x,1/2-y,-z\n6 1/2+x,1/2+y,+z\n7 1/2-x,1/2-y,1/2+z\n8 1/2-x,1/2+y,1/2-z"
  | 29 => some "\n1 +x,+y,+z\n2 -x,-y,1/2+z\n3 1/2+x,-y,+z\n4 1/2-x,+y,1/2+z"
  | 33 => some "\n1 +x,+y,+z\n2 -x,-y,1/2+z\n3 1/2+x,1/2-y,+z\n4 1/2-x,1/2+y,1/2+z"
  | 43 => some "\n1 -x,-y,+z\n2 +x,+y,+z\n3 -x,1/2-y,1/2+z\n4 +x,1/2+y,1/2+z\n5 1/4-x,1/4+y,1/4+z\n6 1/4+x,1/4-y,1/4+z\n7 1/4-x,3/4+y,3/4+z\n8 1/4+x,3/4-y,3/4+z\n9 1/2-x,-y,1/2+z\n10 1/2+x,+y,1/2+z\n11 1/2-x,1/2-y,+z\n12 1/2+x,1/2+y,+z\n13 3/4-x,1/4+y,3/4+z\n14 3/4+x,1/4-y,3/4+z\n15 3/4-x,3/4+y,1/4+z\n16 3/4+x,3/4-y,1/4+z"
  | 56 => some "\n1 -x,-y,-z\n2 +x,+y,+z\n3 -x,1/2+y,1/2-z\n4 +x,1/2-y,1/2+z\n5 1/2-x,+y,1/2+z\n6 1/2+x,-y,1/2-z\n7 1/2-x,1/2-y,+z\n8 1/2+x,1/2+y,-z"
  | 60 => some "\n1 -x,-y,-z\n2 +x,+y,+z\n3 -x,+y,1/2-z\n4 +x,-y,1/2+z\n5 1/2-x,1/2+y,+z\n6 1/2+x,1/2-y,-z\n7 1/2-x,1/2-y,1/2+z\n8 1/2+x,1/2+y,1/2-z"
  | 61 => some "\n1 -x,-y,-z\n2 +x,+y,+z\n3 -x,1/2+y,1/2-z\n4 +x,1/2-y,1/2+z\n5 1/2-x,-y,1/2+z\n6 1/2+x,+y,1/2-z\n7 1/2-x,1/2+y,+z\n8 1/2+x,1/2-y,-z"
  | 76 => some "\n1 +x,+y,+z\n2 -y,+x,1/4+z\n3 -x,-y,1/2+z\n4 +y,-x,3/4+z"
  | 86 => some "\n1 -x,-y,-z\n2 +x,+y,+z\n3 -y,1/2+x,1/2+z\n4 +y,1/2-x,1/2-z\n5 1/2-y,+x,1/2-z\n6 1/2+y,-x,1/2+z\n7 1/2-x,1/2-y,+z\n8 1/2+x,1/2+y,-z"
  | 88 => some "\n1 -x,-y,-z\n2 +x,+y,+z\n3 -x,1/2-y,+z\n4 +x,1/2+y,-z\n5 1/4-y,1/4+x,1/4-z\n6 1/4+y,1/4-x,1/4+z\n7 1/4-y,3/4+x,3/4+z\n8 1/4+y,3/4-x,3/4-z\n9 1/2-x,-y,1/2+z\n10 1/2+x,+y,1/2-z\n11 1/2-x,1/2-y,1/2-z\n12 1/2+x,1/2+y,1/2+z\n13 3/4-y,1/4+x,1/4+z\n14 3/4+y,1/4-x,1/4-z\n15 3/4-y,3/4+x,3/4-z\n16 3/4+y,3/4-x,3/4+z"
  | 96 => some "\n1 +y,+x,-z\n2 +x,+y,+z\n3 -x,-y,1/2+z\n4 -y,-x,1/2-z\n5 1/2+y,1/2-x,1/4+z\n6 1/2+x,1/2-y,1/4-z\n7 1/2-x,1/2+y,3/4-z\n8 1/2-y,1/2+x,3/4+z"
  | 145 => some "\n1 +x,+y,+z\n2 -x+y,-x,1/3+z\n3 -y,+x-y,2/3+z"
  | 148 => some "\n1 -x,-y,-z\n2 -x+y,-x,+z\n3 -y,+x-y,+z\n4 +y,-x+y,-z\n5 +x-y,+x,-z\n6 +x,+y,+z\n7 1/3-x,2/3-y,2/3-z\n8 1/3-x+y,2/3-x,2/3+z\n9 1/3-y,2/3+x-y,2/3+z\n10 1/3+y,2/3-x+y,2/3-z\n11 1/3+x-y,2/3+x,2/3-z\n12 1/3+x,2/3+y,2/3+z\n13 2/3-x,1/3-y,1/3-z\n14 2/3-x+y,1/3-x,1/3+z\n15 2/3-y,1/3+x-y,1/3+z\n16 2/3+y,1/3-x+y,1/3-z\n17 2/3+x-y,1/3+x,1/3-z\n18 2/3+x,1/3+y,1/3+z"
  | 154 => some "\n1 +y,+x,-z\n2 +x,+y,+z\n3 -x+y,-x,1/3+z\n4 +x-y,-y,1/3-z\n5 -x,-x+y,2/3-z\n6 -y,+x-y,2/3+z"
  | 169 => some "\n1 +x,+y,+z\n2 +x-y,+x,1/6+z\n3 -y,+x-y,1/3+z\n4 -x,-y,1/2+z\n5 -x+y,-x,2/3+z\n6 +y,-x+y,5/6+z"
  | _ => none

/-- One `_atom_site` loop line per atom:
`f"{sp}{i} {sp} {x:.12f} {y:.12f} {z:.12f} 1.000000000000\n"`,
1-based enumeration. -/
def atomLinesAux : ℕ → List (String × V3) → String
  | _, [] => ""
  | i, (sp, c) :: rest =>
    sp ++ natStr i ++ " " ++ sp ++ " " ++ pyFormatFixed c.x 12 ++ " " ++
      pyFormatFixed c.y 12 ++ " " ++ pyFormatFixed c.z 12 ++ " 1.000000000000\n" ++
      atomLinesAux (i + 1) rest

/-- The atom-site lines for `zip(atom_types, coords_frac)` starting at
index 1 (`zip` truncates to the shorter list, as in Python). -/
def atomLines (types : List String) (coords : List V3) : String :=
  atomLinesAux 1 (types.zip coords)

/-- `MolecularCrystal.to_cif_string` of the source, parametric in the
trigonometric primitives used by `lattice_params_to_matrix`.  Failure
modes, in source order: unset molecule data (`ValueError`), a singular
lattice in `cart_to_frac_numpy` (`np.linalg.LinAlgError`), and an absent
space-group key in `SG_OPS_TEXT` (`KeyError` carrying the key).  The
buffer writes are assembled as one string concatenation. -/
def to_cif_string (cosd sind sqrtQ : ℚ → ℚ) (mc : MolecularCrystal) :
    Except PyErr String :=
  match mc.local_coords, mc.atom_types with
  | some coords, some types =>
    let R := rodrigues_to_rotmat (toV3 mc.rod)
    let lp := mc.lattice_params
    let L := lattice_params_to_matrix cosd sind sqrtQ lp.a lp.b lp.c lp.alpha lp.beta lp.gamma
    let com_cart := vecMat (toV3 mc.com_frac) L
    let coords_m := coords.map (fun pt => addV3 (matVec R (toV3 pt)) com_cart)
    if det3 L = 0 then Except.error PyErr.linAlgError
    else
      let coords_frac := coords_m.map (fun pt => cart_to_frac pt L)
      match SG_OPS_TEXT mc.space_group with
      | none => Except.error (PyErr.keyError mc.space_group)
      | some ops =>
        Except.ok
          ("data_generated\n" ++
            "_audit_creation_method generated by MolecularCrystal\n" ++
            "_symmetry_Int_Tables_number " ++ intStr mc.space_group ++ "\n" ++
            "_cell_length_a " ++ cellNumStr lp.a ++ "\n" ++
            "_cell_length_b " ++ cellNumStr lp.b ++ "\n" ++
            "_cell_length_c " ++ cellNumStr lp.c ++ "\n" ++
            "_cell_angle_alpha " ++ cellNumStr lp.alpha ++ "\n" ++
            "_cell_angle_beta " ++ cellNumStr lp.beta ++ "\n" ++
            "_cell_angle_gamma " ++ cellNumStr lp.gamma ++ "\n" ++
            "loop_\n" ++
            "_symmetry_equiv_pos_site_id\n" ++
            "_symmetry_equiv_pos_as_xyz" ++
            (pyRstrip ops ++ "\n") ++
            "loop_\n" ++
            "_atom_site_label\n" ++
            "_atom_site_type_symbol\n" ++
            "_atom_site_fract_x\n" ++
            "_atom_site_fract_y\n" ++
            "_atom_site_fract_z\n" ++
            "_atom_site_occupancy\n" ++
            atomLines types coords_frac ++
            "#END\n")
  | _, _ => Except.error (PyErr.valueError "Local coordinates and atom types not set")

theorem to_cif_string_keyError (cosd sind sqrtQ : ℚ → ℚ) (mc : MolecularCrystal)
    (coords : List (ℚ × ℚ × ℚ)) (types : List String)
    (hl : mc.local_coords = some coords) (ht : mc.atom_types = some types)
    (hdet : det3 (lattice_params_to_matrix cosd sind sqrtQ
      mc.lattice_params.a mc.lattice_params.b mc.lattice_params.c
      mc.lattice_params.alpha mc.lattice_params.beta mc.lattice_params.gamma) ≠ 0)
    (hsg : SG_OPS_TEXT mc.space_group = none) :
    to_cif_string cosd sind sqrtQ mc = Except.error (PyErr.keyError mc.space_group) := by
  simp only [to_cif_string, hl, ht, if_neg hdet, hsg]

/-- A structure with every rendering precondition satisfied except the
space-group key: `space_group = 999` is not in the operator table. -/
def c4Cex : MolecularCrystal where
  space_group := 999
  lattice_params := ⟨10, 10, 10, 90, 90, 90⟩
  com_frac := (0, 0, 0)
  rod := (0, 0, 0)
  selfies_tokens := ["[C]"]
  local_coords := some [(0, 0, 0)]
  atom_types := some ["C"]
  properties := []

theorem c4_det_ne_zero :
    det3 (lattice_params_to_matrix (fun _ => 0) (fun _ => 1) (fun _ => 1)
      10 10 10 90 90 90) ≠ 0 := by
  unfold lattice_params_to_matrix gammaStarArg abs_cap det3
  norm_num

/-- **C4, counterexample**: rendering `c4Cex` (space group 999) does fail
before any output is produced, but with the builtin `KeyError` raised by
the `SG_OPS_TEXT[...]` subscript — carrying the key 999 — and not with a
distinct `UnsupportedSpaceGroupError`: the source defines no such class. -/
theorem claim_C4_counterexample :
    to_cif_string (fun _ => 0) (fun _ => 1) (fun _ => 1) c4Cex =
        Except.error (PyErr.keyError 999) ∧
      to_cif_string (fun _ => 0) (fun _ => 1) (fun _ => 1) c4Cex ≠
        Except.error (PyErr.unsupportedSpaceGroup 999) := by
  have h1 : to_cif_string (fun _ => 0) (fun _ => 1) (fun _ => 1) c4Cex =
      Except.error (PyErr.keyError 999) :=
    to_cif_string_keyError _ _ _ c4Cex [(0, 0, 0)] ["C"] rfl rfl c4_det_ne_zero rfl
  refine ⟨h1, ?_⟩
  rw [h1]
  simp

/-- **C4 (amended)**: for every structure whose molecule data is set,
whose lattice matrix is nonsingular (the two failure modes the source
checks first), and whose `space_group` is not a key of the
symmetry-operator table, `to_cif_string` fails with the builtin
`KeyError` carrying the unsupported key — the source defines no distinct
`UnsupportedSpaceGroupError` class.  Rendering is a pure function of the
entity, so the failure leaves the already-decoded entity untouched. -/
theorem claim_C4_unsupported_sg_amended (cosd sind sqrtQ : ℚ → ℚ)
    (mc : MolecularCrystal) (coords : List (ℚ × ℚ × ℚ)) (types : List String)
    (hl : mc.local_coords = some coords) (ht : mc.atom_types = some types)
    (hdet : det3 (lattice_params_to_matrix cosd sind sqrtQ
      mc.lattice_params.a mc.lattice_params.b mc.lattice_params.c
      mc.lattice_params.alpha mc.lattice_params.beta mc.lattice_params.gamma) ≠ 0)
    (hsg : SG_OPS_TEXT mc.space_group = none) :
    to_cif_string cosd sind sqrtQ mc = Except.error (PyErr.keyError mc.space_group) :=
  to_cif_string_keyError cosd sind sqrtQ mc coords types hl ht hdet hsg

/-- Witness for the amended C4 at `space_group = 999`. -/
theorem claim_C4_unsupported_sg_amended_witness :
    to_cif_string (fun _ => 0) (fun _ => 1) (fun _ => 1) c4Cex =
      Except.error (PyErr.keyError 999) :=
  claim_C4_unsupported_sg_amended (fun _ => 0) (fun _ => 1) (fun _ => 1) c4Cex
    [(0, 0, 0)] ["C"] rfl rfl c4_det_ne_zero rfl

/-- The single-atom, unit-orientation structure of the C5 scenario. -/
def c5Struct : MolecularCrystal where
  space_group := 1
  lattice_params := ⟨10, 10, 10, 90, 90, 90⟩
  com_frac := (0, 0, 0)
  rod := (0, 0, 0)
  selfies_tokens := ["[C]"]
  local_coords := some [(0, 0, 0)]
  atom_types := some ["C"]
  properties := []

theorem pyFormatFixed_zero_twelve : pyFormatFixed 0 12 = "0.000000000000" := by
  unfold pyFormatFixed
  have hd : (decide ((0 : ℚ) < 0)) = false := by simp
  rw [hd, abs_zero]
  unfold formatFixedSM
  have h0 : (0 : ℚ) * 10 ^ 12 = ((0 : ℤ) : ℚ) := by norm_num
  rw [h0, roundHalfEven_intCast]
  rfl

/-- **C5**: with the exact values of the trigonometric primitives at the
evaluated points (`cos 90° = 0`, `sin 90° = 1`, `√1 = 1`, true of the
real functions), rendering the C5 structure produces exactly the CIF
text of the claim: cell header lines `_cell_length_a 10` …
`_cell_angle_gamma 90`, the space-group-1 operator line, the atom-site
line `C1 C 0.000000000000 0.000000000000 0.000000000000 1.000000000000`,
and the literal `#END` terminator line at the end. -/
theorem claim_C5_render_cif_exact (cosd sind sqrtQ : ℚ → ℚ)
    (hc : cosd 90 = 0) (hs : sind 90 = 1) (hq : sqrtQ 1 = 1) :
    to_cif_string cosd sind sqrtQ c5Struct = Except.ok
      "data_generated\n_audit_creation_method generated by MolecularCrystal\n_symmetry_Int_Tables_number 1\n_cell_length_a 10\n_cell_length_b 10\n_cell_length_c 10\n_cell_angle_alpha 90\n_cell_angle_beta 90\n_cell_angle_gamma 90\nloop_\n_symmetry_equiv_pos_site_id\n_symmetry_equiv_pos_as_xyz\n1 +x,+y,+z\nloop_\n_atom_site_label\n_atom_site_type_symbol\n_atom_site_fract_x\n_atom_site_fract_y\n_atom_site_fract_z\n_atom_site_occupancy\nC1 C 0.000000000000 0.000000000000 0.000000000000 1.000000000000\n#END\n" := by
  have hval : gammaStarArg cosd sind 90 90 90 = 0 := by
    unfold gammaStarArg abs_cap
    rw [hc, hs]
    norm_num
  have hL : lattice_params_to_matrix cosd sind sqrtQ 10 10 10 90 90 90 =
      ⟨⟨10, 0, 0⟩, ⟨0, 10, 0⟩, ⟨0, 0, 10⟩⟩ := by
    unfold lattice_params_to_matrix
    rw [hval, hc, hs]
    norm_num [hq]
  have hR : rodrigues_to_rotmat (toV3 ((0 : ℚ), (0 : ℚ), (0 : ℚ))) = idM3 := by
    unfold rodrigues_to_rotmat toV3
    norm_num
  have hdet : det3 (⟨⟨10, 0, 0⟩, ⟨0, 10, 0⟩, ⟨0, 0, 10⟩⟩ : M3) ≠ 0 := by
    norm_num [det3]
  have hcom : vecMat (toV3 ((0 : ℚ), (0 : ℚ), (0 : ℚ)))
      (⟨⟨10, 0, 0⟩, ⟨0, 10, 0⟩, ⟨0, 0, 10⟩⟩ : M3) = ⟨0, 0, 0⟩ := by
    norm_num [vecMat, toV3]
  have hmv : matVec idM3 (toV3 ((0 : ℚ), (0 : ℚ), (0 : ℚ))) = ⟨0, 0, 0⟩ := by
    norm_num [matVec, idM3, toV3]
  have hadd : addV3 ⟨0, 0, 0⟩ ⟨0, 0, 0⟩ = (⟨0, 0, 0⟩ : V3) := by
    norm_num [addV3]
  have hcf : cart_to_frac ⟨0, 0, 0⟩ (⟨⟨10, 0, 0⟩, ⟨0, 10, 0⟩, ⟨0, 0, 10⟩⟩ : M3) =
      ⟨0, 0, 0⟩ := by
    norm_num [cart_to_frac, vecMat, inv3, det3]
  simp only [to_cif_string, c5Struct, hL, hR, List.map_cons, List.map_nil, hmv, hcom,
    hadd, if_neg hdet, hcf, atomLines, List.zip, List.zipWith, atomLinesAux,
    pyFormatFixed_zero_twelve]
  rfl

/-- Witness for C5 with constant trigonometric stubs that agree with the
real functions at the evaluated points. -/
theorem claim_C5_render_cif_exact_witness :
    to_cif_string (fun _ => 0) (fun _ => 1) (fun _ => 1) c5Struct = Except.ok
      "data_generated\n_audit_creation_method generated by MolecularCrystal\n_symmetry_Int_Tables_number 1\n_cell_length_a 10\n_cell_length_b 10\n_cell_length_c 10\n_cell_angle_alpha 90\n_cell_angle_beta 90\n_cell_angle_gamma 90\nloop_\n_symmetry_equiv_pos_site_id\n_symmetry_equiv_pos_as_xyz\n1 +x,+y,+z\nloop_\n_atom_site_label\n_atom_site_type_symbol\n_atom_site_fract_x\n_atom_site_fract_y\n_atom_site_fract_z\n_atom_site_occupancy\nC1 C 0.000000000000 0.000000000000 0.000000000000 1.000000000000\n#END\n" :=
  claim_C5_render_cif_exact (fun _ => 0) (fun _ => 1) (fun _ => 1) rfl rfl rfl

end OrgCrystal
